import Mathlib

/-!
Verification development for `nxc/helpers/bloodhound.py`.

The Python module is shallowly embedded as follows.

* Python strings are modelled as `List Char` (`PyStr`): all of the string
  operations the module uses (`[-1]`, `[:-1]`, `.upper()`, `.split(".")`,
  `.rstrip(",")`, `STARTS WITH`, concatenation in f-strings) become
  structurally recursive list functions, so concrete runs reduce inside the
  kernel.
* The Neo4j graph is a list of `Node`s carrying a label, a `name`, a
  `distinguishedname` and an association list of boolean assessment
  properties.  The two Cypher query shapes the module issues (`MATCH ...
  RETURN`, `MATCH ... SET ... RETURN`) are executed against that list; every
  issued query is also recorded in the transaction state so that theorems can
  speak about which queries a call performs.
* The logger is modelled as an append-only list of `(channel, message)`
  entries in the same state.
* Python exceptions are modelled with `Except`: an error value carries the
  transaction state at raise time (log entries already emitted and queries
  already run persist; property writes of an aborted transaction are rolled
  back, matching the `with ... begin_transaction()` context manager).
  Driver-level Neo4j failures (`AuthError`, `ServiceUnavailable`, other) are
  injected through an explicit `driverFault` parameter of the two public
  operations.
-/

/-- Python strings, modelled as lists of characters. -/
abbrev PyStr := List Char

/-- Coerce a Lean string literal to the `PyStr` model. -/
def ps (s : String) : PyStr := s.data

/-- Python's `str.upper` on a single character (ASCII range, as the module
only ever feeds account and domain names to it). -/
def pyUpperChar (c : Char) : Char :=
  if 97 ≤ c.toNat ∧ c.toNat ≤ 122 then Char.ofNat (c.toNat - 32) else c

/-- Python's `str.upper`. -/
def pyUpper (l : PyStr) : PyStr := l.map pyUpperChar

/-- Python's `str.split "."`: splits at every dot, `"".split(".") = [""]`. -/
def splitOnDot : PyStr → List PyStr
  | [] => [[]]
  | c :: rest =>
    let r := splitOnDot rest
    if c = '.' then [] :: r
    else
      match r with
      | [] => [[c]]
      | h :: t => (c :: h) :: t

/-- Python's `str.rstrip ","`. -/
def rstripComma (l : PyStr) : PyStr := (l.reverse.dropWhile (fun c => c = ',')).reverse

/-- `"".join([f"DC={dc}," for dc in domain.split(".")]).rstrip(",")`
(lines 35/90 of the source): the distinguished-name form of a domain. -/
def derive_dn (domain : PyStr) : PyStr :=
  rstripComma (List.flatten ((splitOnDot domain).map (fun dc => ps "DC=" ++ dc ++ [','])))

/-- A BloodHound graph node: label (`User` / `Computer` / `Domain`), `name`,
`distinguishedname` and the boolean assessment properties. -/
structure Node where
  label : PyStr
  name : PyStr
  distinguishedname : PyStr
  props : List (PyStr × Bool)
deriving DecidableEq

/-- `node.get(p)`: `some b` if the property is stored, `none` if absent. -/
def Node.get (n : Node) (p : PyStr) : Option Bool := n.props.lookup p

/-- One element of the normalized account batch:
`{"username": ..., "domain": ...}`. -/
structure UserInfo where
  username : PyStr
  domain : PyStr
deriving DecidableEq

/-- The three logger channels the module uses. -/
inductive Channel
  | debug
  | highlight
  | fail
deriving DecidableEq

/-- One logger call. -/
structure LogEntry where
  ch : Channel
  msg : PyStr
deriving DecidableEq

/-- The query shapes issued against the graph store. -/
inductive Query
  | domainCheck (dn : PyStr)
  | matchExact (label name : PyStr)
  | matchStarts (label pre : PyStr)
  | setProp (label name prop : PyStr) (v : Bool)
deriving DecidableEq

/-- Transaction-scoped state: the graph plus the observation trace
(queries issued, log entries emitted). -/
structure TxState where
  graph : List Node
  queries : List Query
  log : List LogEntry
deriving DecidableEq

/-- Neo4j driver-level failures (`neo4j.exceptions`). -/
inductive DBErr
  | auth
  | serviceUnavailable
  | other (msg : PyStr)
deriving DecidableEq

/-- Python exceptions that can escape the transaction body.  The source's
`except ValueError` arm of `mark_web_client_enabled` is unreachable: the only
exceptions its body can raise are `IndexError` (from `username[-1]` on an
empty string, and from `.data()[0]` on an empty result), `TypeError` (from
subscripting a `str` with `'username'` on line 151) and the wrapped Neo4j
driver errors. -/
inductive PyExc
  | indexError
  | typeError
  | neo4jAuth
  | neo4jUnavailable
  | neo4jOther (msg : PyStr)
deriving DecidableEq

/-- `str(e)` for the exceptions above, as interpolated by
`f"Unexpected error with Neo4J: {e}"`. -/
def PyExc.message : PyExc → PyStr
  | .indexError => ps "string index out of range"
  | .typeError => ps "string indices must be integers"
  | .neo4jAuth => ps "AuthError"
  | .neo4jUnavailable => ps "ServiceUnavailable"
  | .neo4jOther m => m

/-- Predicate of the domain-existence query:
`MATCH (d:Domain) WHERE d.distinguishedname STARTS WITH dn`. -/
def domainMatches (dn : PyStr) (n : Node) : Bool :=
  n.label == ps "Domain" && dn.isPrefixOf n.distinguishedname

/-- Predicate of the exact-name query: `MATCH (c:label \x7bname:nm\x7d)`. -/
def nodeMatchesExact (label nm : PyStr) (n : Node) : Bool :=
  n.label == label && n.name == nm

/-- Predicate of the prefix query:
`MATCH (c:label) WHERE c.name STARTS WITH pre`. -/
def nodeMatchesStarts (label pre : PyStr) (n : Node) : Bool :=
  n.label == label && pre.isPrefixOf n.name

/-- Line 124-126: `_does_domain_exist_in_bloodhound(distinguished_name, tx)`:
runs the domain query, recording it in the trace. -/
def _does_domain_exist_in_bloodhound (distinguished_name : PyStr) (s : TxState) :
    List Node × TxState :=
  (s.graph.filter (domainMatches distinguished_name),
   { s with queries := s.queries ++ [Query.domainCheck distinguished_name] })

/-- `tx.run(f"MATCH (c:label \x7bname:'nm'\x7d) RETURN c").data()`. -/
def run_match_exact (label nm : PyStr) (s : TxState) : List Node × TxState :=
  (s.graph.filter (nodeMatchesExact label nm),
   { s with queries := s.queries ++ [Query.matchExact label nm] })

/-- `tx.run(f"MATCH (c:label) WHERE c.name STARTS WITH 'pre' RETURN c").data()`. -/
def run_match_starts (label pre : PyStr) (s : TxState) : List Node × TxState :=
  (s.graph.filter (nodeMatchesStarts label pre),
   { s with queries := s.queries ++ [Query.matchStarts label pre] })

/-- Effect of a `SET c.prop = v` clause on one node. -/
def setPropOnNode (label nm prop : PyStr) (v : Bool) (n : Node) : Node :=
  if nodeMatchesExact label nm n then { n with props := (prop, v) :: n.props } else n

/-- `tx.run(f"MATCH (c:label \x7bname:'nm'\x7d) SET c.prop=v RETURN c.name AS name").data()`:
returns the names of the updated nodes and the updated graph. -/
def run_set_prop (label nm prop : PyStr) (v : Bool) (s : TxState) :
    List PyStr × TxState :=
  ((s.graph.filter (nodeMatchesExact label nm)).map Node.name,
   { s with
      graph := s.graph.map (setPropOnNode label nm prop v),
      queries := s.queries ++ [Query.setProp label nm prop v] })

/-- `logger.debug`. -/
def logDebug (m : PyStr) (s : TxState) : TxState :=
  { s with log := s.log ++ [⟨Channel.debug, m⟩] }

/-- `logger.highlight`. -/
def logHighlight (m : PyStr) (s : TxState) : TxState :=
  { s with log := s.log ++ [⟨Channel.highlight, m⟩] }

/-- `logger.fail`. -/
def logFail (m : PyStr) (s : TxState) : TxState :=
  { s with log := s.log ++ [⟨Channel.fail, m⟩] }

/-- Line 134. -/
def computerNotFoundMsg : PyStr := ps "Computer not found in the BloodHound database"

/-- Lines 148, 179, 193. -/
def accountNotFoundMsg : PyStr := ps "Account not found in the BloodHound database."

/-- Line 196 (and, intended but never reached, line 151). -/
def multipleAccountsMsg (username : PyStr) : PyStr :=
  ps "Multiple accounts found with the name \x27" ++ username ++
    ps "\x27 in the BloodHound database. Please specify the FQDN ex:domain.local"

/-- Lines 137/154 debug text. -/
def webclientSetQueryMsg (account_type nm : PyStr) : PyStr :=
  ps "MATCH (c:" ++ account_type ++ ps " \x7bname:\x27" ++ nm ++
    ps "\x27\x7d) SET c.webclientrunning=True RETURN c.name AS name"

/-- Lines 139/156 highlight text. -/
def webclientHighlightMsg (nm : PyStr) : PyStr :=
  ps "Node " ++ nm ++
    ps " successfully noted that webclient was running on this device in the BloodHound database"

/-- Lines 182/199 debug text. -/
def ownedSetQueryMsg (account_type nm : PyStr) : PyStr :=
  ps "MATCH (c:" ++ account_type ++ ps " \x7bname:\x27" ++ nm ++
    ps "\x27\x7d) SET c.owned=True RETURN c.name AS name"

/-- Lines 184/201 highlight text. -/
def ownedHighlightMsg (nm : PyStr) : PyStr :=
  ps "Node " ++ nm ++ ps " successfully set as owned in BloodHound"

/-- Lines 38/93 debug text. -/
def domainFallbackMsg (domain : PyStr) : PyStr :=
  ps "Domain " ++ domain ++ ps " not found in BloodHound. Falling back to domainless query."

/-- Lines 159-170: `_parse_user_or_machine_account(user_info, domain=None)`.
`user_info["username"][-1]` raises `IndexError` on the empty string. -/
def _parse_user_or_machine_account (user_info : UserInfo) (domain : Option PyStr) :
    Except PyExc (PyStr × PyStr) :=
  if user_info.username = [] then .error .indexError
  else if user_info.username.getLast? = some '$' then
    .ok ((match domain with
          | some d => user_info.username.dropLast ++ [ '.' ] ++ d
          | none => user_info.username.dropLast), ps "Computer")
  else
    .ok ((match domain with
          | some d => user_info.username ++ [ '@' ] ++ d
          | none => user_info.username), ps "User")

/-- The canonical account name `_parse_user_or_machine_account` computes for a
non-empty username (first component of its result). -/
def py_account_name (username : PyStr) (domain : Option PyStr) : PyStr :=
  if username.getLast? = some '$' then
    match domain with
    | some d => username.dropLast ++ [ '.' ] ++ d
    | none => username.dropLast
  else
    match domain with
    | some d => username ++ [ '@' ] ++ d
    | none => username

/-- The node label `_parse_user_or_machine_account` infers (second component
of its result). -/
def py_account_type (username : PyStr) : PyStr :=
  if username.getLast? = some '$' then ps "Computer" else ps "User"

/-- Lines 128-139: `_adjust_webclient_property_with_domain(machine_info, domain, tx, logger)`. -/
def _adjust_webclient_property_with_domain (machine_info : UserInfo) (domain : PyStr)
    (s : TxState) : Except (PyExc × TxState) TxState :=
  match _parse_user_or_machine_account machine_info (some domain) with
  | .error e => .error (e, s)
  | .ok (webclient_enabled_machine, account_type) =>
    let (result, s) := run_match_exact account_type webclient_enabled_machine s
    match result with
    | [] => .ok (logFail computerNotFoundMsg s)
    | c :: _ =>
      if c.get (ps "webclientrunning") == some false || c.get (ps "webclientrunning") == none then
        let s := logDebug (webclientSetQueryMsg account_type webclient_enabled_machine) s
        let (names, s) := run_set_prop account_type webclient_enabled_machine
          (ps "webclientrunning") true s
        match names with
        | [] => .error (.indexError, s)
        | nm :: _ => .ok (logHighlight (webclientHighlightMsg nm) s)
      else .ok s

/-- Lines 142-156: `_adjust_webclient_property_without_domain(machine_info, tx, logger)`.
On line 151 the source evaluates `webclient_enabled_machine['username']` where
`webclient_enabled_machine` is a `str`, so the two-or-more branch raises
`TypeError` while building the f-string and the `logger.fail` call never
happens. -/
def _adjust_webclient_property_without_domain (machine_info : UserInfo)
    (s : TxState) : Except (PyExc × TxState) TxState :=
  match _parse_user_or_machine_account machine_info none with
  | .error e => .error (e, s)
  | .ok (webclient_enabled_machine, account_type) =>
    let (result, s) := run_match_starts account_type webclient_enabled_machine s
    match result with
    | [] => .ok (logFail accountNotFoundMsg s)
    | c :: rest =>
      if rest ≠ [] then
        .error (.typeError, s)
      else if c.get (ps "webclientrunning") == some false || c.get (ps "webclientrunning") == none then
        let s := logDebug (webclientSetQueryMsg account_type c.name) s
        let (names, s) := run_set_prop account_type c.name (ps "webclientrunning") true s
        match names with
        | [] => .error (.indexError, s)
        | nm :: _ => .ok (logHighlight (webclientHighlightMsg nm) s)
      else .ok s

/-- Lines 173-184: `_add_with_domain(user_info, domain, tx, logger)`. -/
def _add_with_domain (user_info : UserInfo) (domain : PyStr)
    (s : TxState) : Except (PyExc × TxState) TxState :=
  match _parse_user_or_machine_account user_info (some domain) with
  | .error e => .error (e, s)
  | .ok (user_owned, account_type) =>
    let (result, s) := run_match_exact account_type user_owned s
    match result with
    | [] => .ok (logFail accountNotFoundMsg s)
    | c :: _ =>
      if c.get (ps "owned") == some false || c.get (ps "owned") == none then
        let s := logDebug (ownedSetQueryMsg account_type user_owned) s
        let (names, s) := run_set_prop account_type user_owned (ps "owned") true s
        match names with
        | [] => .error (.indexError, s)
        | nm :: _ => .ok (logHighlight (ownedHighlightMsg nm) s)
      else .ok s

/-- Lines 187-201: `_add_without_domain(user_info, tx, logger)`.  Unlike line
151, line 196 correctly interpolates `user_info['username']`, so the
two-or-more branch reports the ambiguity through `logger.fail`. -/
def _add_without_domain (user_info : UserInfo)
    (s : TxState) : Except (PyExc × TxState) TxState :=
  match _parse_user_or_machine_account user_info none with
  | .error e => .error (e, s)
  | .ok (user_owned, account_type) =>
    let (result, s) := run_match_starts account_type user_owned s
    match result with
    | [] => .ok (logFail accountNotFoundMsg s)
    | c :: rest =>
      if rest ≠ [] then
        .ok (logFail (multipleAccountsMsg user_info.username) s)
      else if c.get (ps "owned") == some false || c.get (ps "owned") == none then
        let s := logDebug (ownedSetQueryMsg account_type c.name) s
        let (names, s) := run_set_prop account_type c.name (ps "owned") true s
        match names with
        | [] => .error (.indexError, s)
        | nm :: _ => .ok (logHighlight (ownedHighlightMsg nm) s)
      else .ok s

/-- Lines 34-42: the loop body of `mark_web_client_enabled`: derive the
distinguished name, test the domain, dispatch to the matching strategy. -/
def process_machine_webclient (machine_info : UserInfo) (s : TxState) :
    Except (PyExc × TxState) TxState :=
  let distinguished_name := derive_dn machine_info.domain
  let (domain_query, s) := _does_domain_exist_in_bloodhound distinguished_name s
  match domain_query with
  | [] =>
    let s := logDebug (domainFallbackMsg machine_info.domain) s
    _adjust_webclient_property_without_domain machine_info s
  | d :: _ =>
    _adjust_webclient_property_with_domain machine_info d.name s

/-- Lines 89-97: the loop body of `add_user_bh`. -/
def process_user_add (user_info : UserInfo) (s : TxState) :
    Except (PyExc × TxState) TxState :=
  let distinguished_name := derive_dn user_info.domain
  let (domain_query, s) := _does_domain_exist_in_bloodhound distinguished_name s
  match domain_query with
  | [] =>
    let s := logDebug (domainFallbackMsg user_info.domain) s
    _add_without_domain user_info s
  | d :: _ =>
    _add_with_domain user_info d.name s

/-- The `for machine_info in machines_where_webclient_is_enabled` loop. -/
def process_list_webclient : List UserInfo → TxState → Except (PyExc × TxState) TxState
  | [], s => .ok s
  | m :: rest, s =>
    match process_machine_webclient m s with
    | .ok s' => process_list_webclient rest s'
    | .error es => .error es

/-- The `for user_info in users_owned` loop. -/
def process_list_add : List UserInfo → TxState → Except (PyExc × TxState) TxState
  | [], s => .ok s
  | u :: rest, s =>
    match process_user_add u s with
    | .ok s' => process_list_add rest s'
    | .error es => .error es

/-- The `[BloodHound]` section of the configuration. -/
structure BHConfig where
  bh_enabled : PyStr
  bh_uri : PyStr
  bh_port : PyStr
  bh_user : PyStr
  bh_pass : PyStr
deriving DecidableEq

/-- Caller-visible world: the graph, the observation trace, and counters for
driver acquisition (`_initiate_bloodhound_connection`) and release
(`driver.close()` in the `finally` block). -/
structure World where
  graph : List Node
  queries : List Query
  log : List LogEntry
  opened : Nat
  closed : Nat
deriving DecidableEq

/-- The duck-typed first argument of the public operations: either a plain
string or an already-built list of `{"username", "domain"}` records. -/
inductive BHInput
  | single (s : PyStr)
  | batch (l : List UserInfo)
deriving DecidableEq

/-- Lines 108-121: `_initiate_bloodhound_connection(config)` (the URI it
returns; driver construction itself performs no network traffic). -/
def _initiate_bloodhound_connection (config : BHConfig) : PyStr :=
  ps "bolt://" ++ config.bh_uri ++ [ ':' ] ++ config.bh_port

/-- The `except`-dispatch shared by both public operations (lines 43-50 and
98-103): the message `logger.fail` receives for each exception that escapes
the transaction body.  (`except ValueError` of `mark_web_client_enabled` is
unreachable, see `PyExc`.) -/
def failMessageFor (config : BHConfig) (uri : PyStr) : PyExc → PyStr
  | .neo4jAuth =>
      ps "Provided Neo4J credentials (" ++ config.bh_user ++ [ ':' ] ++ config.bh_pass ++
        ps ") are not valid."
  | .neo4jUnavailable => ps "Neo4J does not seem to be available on " ++ uri ++ ps "."
  | e => ps "Unexpected error with Neo4J: " ++ e.message

/-- Injected driver-level failure turned into the exception the body raises
when the transaction is first used. -/
def driverExc : DBErr → PyExc
  | .auth => .neo4jAuth
  | .serviceUnavailable => .neo4jUnavailable
  | .other m => .neo4jOther m

/-- Lines 1-52: `mark_web_client_enabled(machine_account, domain, logger, config)`.
`driverFault` injects a driver-level Neo4j failure (none on a healthy store).
On an exception the `with`-block transaction is not committed (property
writes are rolled back), the matching `except` arm logs a failure, and the
`finally` block always closes the driver. -/
def mark_web_client_enabled (machine_account : BHInput) (domain : PyStr)
    (config : BHConfig) (driverFault : Option DBErr) (w : World) : World :=
  let machines_where_webclient_is_enabled : List UserInfo :=
    match machine_account with
    | .single str => [⟨pyUpper str, pyUpper domain⟩]
    | .batch l => l
  if config.bh_enabled ≠ ps "False" then
    let uri := _initiate_bloodhound_connection config
    let w := { w with opened := w.opened + 1 }
    let body : Except (PyExc × TxState) TxState :=
      match driverFault with
      | some e => .error (driverExc e, ⟨w.graph, w.queries, w.log⟩)
      | none => process_list_webclient machines_where_webclient_is_enabled
          ⟨w.graph, w.queries, w.log⟩
    let w :=
      match body with
      | .ok ts => { w with graph := ts.graph, queries := ts.queries, log := ts.log }
      | .error (e, ts) =>
          { w with
              queries := ts.queries,
              log := ts.log ++ [LogEntry.mk Channel.fail (failMessageFor config uri e)] }
    { w with closed := w.closed + 1 }
  else w

/-- Lines 55-105: `add_user_bh(user, domain, logger, config)`. -/
def add_user_bh (user : BHInput) (domain : PyStr)
    (config : BHConfig) (driverFault : Option DBErr) (w : World) : World :=
  let users_owned : List UserInfo :=
    match user with
    | .single str => [⟨pyUpper str, pyUpper domain⟩]
    | .batch l => l
  if config.bh_enabled ≠ ps "False" then
    let uri := _initiate_bloodhound_connection config
    let w := { w with opened := w.opened + 1 }
    let body : Except (PyExc × TxState) TxState :=
      match driverFault with
      | some e => .error (driverExc e, ⟨w.graph, w.queries, w.log⟩)
      | none => process_list_add users_owned ⟨w.graph, w.queries, w.log⟩
    let w :=
      match body with
      | .ok ts => { w with graph := ts.graph, queries := ts.queries, log := ts.log }
      | .error (e, ts) =>
          { w with
              queries := ts.queries,
              log := ts.log ++ [LogEntry.mk Channel.fail (failMessageFor config uri e)] }
    { w with closed := w.closed + 1 }
  else w

/-- Queries recorded up to the point the body returned or raised. -/
def resQueries : Except (PyExc × TxState) TxState → List Query
  | .ok ts => ts.queries
  | .error (_, ts) => ts.queries

/-- Modelled from the spec: the reconcile primitive of §4.2 generalized over
the `(property, desiredValue)` pair.  The repository's mark-SMB-signing,
mark-LDAP-signing and mark-LDAPS-channel-binding operations are not among the
provided sources; the spec describes each as a record-batch driver calling
this primitive per record with fixed pairs.  The body mirrors the source's
`_add_with_domain` / `_add_without_domain` pair (domain test, exact match on
known domain, prefix fallback, ambiguity report, write only when the stored
value differs from the desired value), with the property and value abstracted. -/
def reconcile_record (prop : PyStr) (v : Bool) (info : UserInfo) (s : TxState) :
    Except (PyExc × TxState) TxState :=
  let distinguished_name := derive_dn info.domain
  let (domain_query, s) := _does_domain_exist_in_bloodhound distinguished_name s
  match domain_query with
  | [] =>
    let s := logDebug (domainFallbackMsg info.domain) s
    match _parse_user_or_machine_account info none with
    | .error e => .error (e, s)
    | .ok (nm, account_type) =>
      let (result, s) := run_match_starts account_type nm s
      match result with
      | [] => .ok (logFail accountNotFoundMsg s)
      | c :: rest =>
        if rest ≠ [] then
          .ok (logFail (multipleAccountsMsg info.username) s)
        else if c.get prop == some v then .ok s
        else
          let (names, s) := run_set_prop account_type c.name prop v s
          match names with
          | [] => .error (.indexError, s)
          | nm' :: _ => .ok (logHighlight (ps "Node " ++ nm' ++ ps " updated") s)
  | d :: _ =>
    match _parse_user_or_machine_account info (some d.name) with
    | .error e => .error (e, s)
    | .ok (nm, account_type) =>
      let (result, s) := run_match_exact account_type nm s
      match result with
      | [] => .ok (logFail accountNotFoundMsg s)
      | c :: _ =>
        if c.get prop == some v then .ok s
        else
          let (names, s) := run_set_prop account_type nm prop v s
          match names with
          | [] => .error (.indexError, s)
          | nm' :: _ => .ok (logHighlight (ps "Node " ++ nm' ++ ps " updated") s)

/-- Modelled from the spec: one record of a multi-property mark-operation;
the writes are issued as independent `reconcile_record` calls in the fixed
order of the pair list (§4.2). -/
def process_record_pairs (pairs : List (PyStr × Bool)) (info : UserInfo) (s : TxState) :
    Except (PyExc × TxState) TxState :=
  match pairs with
  | [] => .ok s
  | (p, v) :: rest =>
    match reconcile_record p v info s with
    | .ok s' => process_record_pairs rest info s'
    | .error es => .error es

/-- Modelled from the spec: the record-batch loop of a mark-operation. -/
def process_list_pairs (pairs : List (PyStr × Bool)) :
    List UserInfo → TxState → Except (PyExc × TxState) TxState
  | [], s => .ok s
  | u :: rest, s =>
    match process_record_pairs pairs u s with
    | .ok s' => process_list_pairs pairs rest s'
    | .error es => .error es

/-- Modelled from the spec: the shared public-operation shape (normalize the
duck-typed input, skip when disabled, connection-scoped batch, catch-all
error dispatch, close on every path), instantiated below for the three
mark-operations missing from the provided sources. -/
def run_mark_operation (pairs : List (PyStr × Bool)) (input : BHInput) (domain : PyStr)
    (config : BHConfig) (driverFault : Option DBErr) (w : World) : World :=
  let records : List UserInfo :=
    match input with
    | .single str => [⟨pyUpper str, pyUpper domain⟩]
    | .batch l => l
  if config.bh_enabled ≠ ps "False" then
    let uri := _initiate_bloodhound_connection config
    let w := { w with opened := w.opened + 1 }
    let body : Except (PyExc × TxState) TxState :=
      match driverFault with
      | some e => .error (driverExc e, ⟨w.graph, w.queries, w.log⟩)
      | none => process_list_pairs pairs records ⟨w.graph, w.queries, w.log⟩
    let w :=
      match body with
      | .ok ts => { w with graph := ts.graph, queries := ts.queries, log := ts.log }
      | .error (e, ts) =>
          { w with
              queries := ts.queries,
              log := ts.log ++ [LogEntry.mk Channel.fail (failMessageFor config uri e)] }
    { w with closed := w.closed + 1 }
  else w

/-- Modelled from the spec: `mark SMB signing disabled` (`smbsigning = false`). -/
def mark_smb_signing_disabled : BHInput → PyStr → BHConfig → Option DBErr → World → World :=
  run_mark_operation [(ps "smbsigning", false)]

/-- Modelled from the spec: `mark LDAP signing disabled`
(`ldapsigning = false` together with `ldapavailable = true`, two writes). -/
def mark_ldap_signing_disabled : BHInput → PyStr → BHConfig → Option DBErr → World → World :=
  run_mark_operation [(ps "ldapsigning", false), (ps "ldapavailable", true)]

/-- Modelled from the spec: `mark LDAPS channel binding missing`
(`ldapsepa = false` together with `ldapsavailable = true`, two writes). -/
def mark_ldaps_channel_binding_missing : BHInput → PyStr → BHConfig → Option DBErr → World → World :=
  run_mark_operation [(ps "ldapsepa", false), (ps "ldapsavailable", true)]

/-! ### Basic lemmas about the string model -/

theorem Char.toNat_ofNat_valid {n : Nat} (h : Nat.isValidChar n) :
    (Char.ofNat n).toNat = n := by
  simp [Char.ofNat, dif_pos h, Char.ofNatAux, Char.toNat, UInt32.toNat, BitVec.ofNatLt]

theorem pyUpperChar_idem (c : Char) : pyUpperChar (pyUpperChar c) = pyUpperChar c := by
  unfold pyUpperChar
  split
  · next h =>
    have hv : Nat.isValidChar (c.toNat - 32) := by
      left
      omega
    rw [Char.toNat_ofNat_valid hv]
    have hn : ¬ (97 ≤ c.toNat - 32 ∧ c.toNat - 32 ≤ 122) := by omega
    rw [if_neg hn]
  · rfl

theorem pyUpper_idem (l : PyStr) : pyUpper (pyUpper l) = pyUpper l := by
  simp [pyUpper, List.map_map, Function.comp_def, pyUpperChar_idem]

/-! ### Basic lemmas about nodes, queries and property writes -/

theorem setPropOnNode_label (L nm p : PyStr) (v : Bool) (n : Node) :
    (setPropOnNode L nm p v n).label = n.label := by
  unfold setPropOnNode
  split <;> rfl

theorem setPropOnNode_name (L nm p : PyStr) (v : Bool) (n : Node) :
    (setPropOnNode L nm p v n).name = n.name := by
  unfold setPropOnNode
  split <;> rfl

theorem setPropOnNode_dn (L nm p : PyStr) (v : Bool) (n : Node) :
    (setPropOnNode L nm p v n).distinguishedname = n.distinguishedname := by
  unfold setPropOnNode
  split <;> rfl

theorem domainMatches_setProp (dn L nm p : PyStr) (v : Bool) (n : Node) :
    domainMatches dn (setPropOnNode L nm p v n) = domainMatches dn n := by
  unfold domainMatches
  rw [setPropOnNode_label, setPropOnNode_dn]

theorem nodeMatchesExact_setProp (l₀ n₀ L nm p : PyStr) (v : Bool) (n : Node) :
    nodeMatchesExact l₀ n₀ (setPropOnNode L nm p v n) = nodeMatchesExact l₀ n₀ n := by
  unfold nodeMatchesExact
  rw [setPropOnNode_label, setPropOnNode_name]

theorem nodeMatchesStarts_setProp (l₀ p₀ L nm p : PyStr) (v : Bool) (n : Node) :
    nodeMatchesStarts l₀ p₀ (setPropOnNode L nm p v n) = nodeMatchesStarts l₀ p₀ n := by
  unfold nodeMatchesStarts
  rw [setPropOnNode_label, setPropOnNode_name]

/-- Filtering by a predicate that ignores properties commutes with a
property write over the whole graph. -/
theorem filter_map_setProp (P : Node → Bool) (L nm p : PyStr) (v : Bool)
    (hP : ∀ n, P (setPropOnNode L nm p v n) = P n) (g : List Node) :
    (g.map (setPropOnNode L nm p v)).filter P =
      (g.filter P).map (setPropOnNode L nm p v) := by
  rw [List.filter_map]
  congr 1
  apply List.filter_congr
  intro n _
  exact hP n

theorem Node.get_setPropOnNode_same (L nm p : PyStr) (v : Bool) (n : Node) :
    (setPropOnNode L nm p v n).get p =
      if nodeMatchesExact L nm n then some v else n.get p := by
  unfold setPropOnNode Node.get
  split
  · simp [List.lookup]
  · rfl

/-- The source's `in (False, None)` test on an `Option Bool` property value
is the negation of `== some true`. -/
theorem get_guard_eq (o : Option Bool) :
    (o == some false || o == none) = !(o == some true) := by
  rcases o with _ | b
  · rfl
  · cases b <;> rfl

/-- For a non-empty username `_parse_user_or_machine_account` succeeds and
returns exactly the canonical name and label of the classification rule. -/
theorem parse_ok (u : UserInfo) (dom : Option PyStr) (hu : u.username ≠ []) :
    _parse_user_or_machine_account u dom =
      .ok (py_account_name u.username dom, py_account_type u.username) := by
  unfold _parse_user_or_machine_account py_account_name py_account_type
  rw [if_neg hu]
  split
  · rfl
  · rfl

/-! ### Scenario lemmas for the reconcile bodies -/

theorem adjust_wd_notfound (i : UserInfo) (d : PyStr) (s : TxState)
    (hu : i.username ≠ [])
    (hfilter : s.graph.filter (nodeMatchesExact (py_account_type i.username)
      (py_account_name i.username (some d))) = []) :
    _adjust_webclient_property_with_domain i d s =
      .ok { s with
              queries := s.queries ++ [Query.matchExact (py_account_type i.username)
                (py_account_name i.username (some d))],
              log := s.log ++ [⟨Channel.fail, computerNotFoundMsg⟩] } := by
  unfold _adjust_webclient_property_with_domain
  rw [parse_ok _ _ hu]
  simp [run_match_exact, hfilter, logFail]

theorem adjust_wd_already (i : UserInfo) (d : PyStr) (s : TxState) (c : Node)
    (rest : List Node) (hu : i.username ≠ [])
    (hfilter : s.graph.filter (nodeMatchesExact (py_account_type i.username)
      (py_account_name i.username (some d))) = c :: rest)
    (hval : c.get (ps "webclientrunning") = some true) :
    _adjust_webclient_property_with_domain i d s =
      .ok { s with
              queries := s.queries ++ [Query.matchExact (py_account_type i.username)
                (py_account_name i.username (some d))] } := by
  unfold _adjust_webclient_property_with_domain
  rw [parse_ok _ _ hu]
  simp [run_match_exact, hfilter, hval]

theorem adjust_wd_update (i : UserInfo) (d : PyStr) (s : TxState) (c : Node)
    (rest : List Node) (hu : i.username ≠ [])
    (hfilter : s.graph.filter (nodeMatchesExact (py_account_type i.username)
      (py_account_name i.username (some d))) = c :: rest)
    (hval : c.get (ps "webclientrunning") ≠ some true) :
    _adjust_webclient_property_with_domain i d s =
      .ok { s with
              graph := s.graph.map (setPropOnNode (py_account_type i.username)
                (py_account_name i.username (some d)) (ps "webclientrunning") true),
              queries := s.queries ++ [Query.matchExact (py_account_type i.username)
                  (py_account_name i.username (some d)),
                Query.setProp (py_account_type i.username)
                  (py_account_name i.username (some d)) (ps "webclientrunning") true],
              log := s.log ++ [⟨Channel.debug, webclientSetQueryMsg (py_account_type i.username)
                  (py_account_name i.username (some d))⟩,
                ⟨Channel.highlight, webclientHighlightMsg c.name⟩] } := by
  unfold _adjust_webclient_property_with_domain
  rw [parse_ok _ _ hu]
  rcases hg : c.get (ps "webclientrunning") with _ | b
  · simp [run_match_exact, hfilter, hg, logDebug, run_set_prop, logHighlight]
  · cases b
    · simp [run_match_exact, hfilter, hg, logDebug, run_set_prop, logHighlight]
    · exact absurd hg hval

theorem mem_exact_filter_names {g : List Node} {L nm x : PyStr}
    (hx : x ∈ (g.filter (nodeMatchesExact L nm)).map Node.name) : x = nm := by
  simp only [List.mem_map, List.mem_filter] at hx
  obtain ⟨n, ⟨-, hmatch⟩, rfl⟩ := hx
  simp only [nodeMatchesExact, Bool.and_eq_true, beq_iff_eq] at hmatch
  exact hmatch.2

theorem exact_filter_names_ne_nil {g : List Node} {L nm : PyStr} {c : Node}
    (hc : c ∈ g) (hmatch : nodeMatchesExact L nm c = true) :
    (g.filter (nodeMatchesExact L nm)).map Node.name ≠ [] := by
  intro h
  rw [List.map_eq_nil_iff, List.filter_eq_nil_iff] at h
  exact h c hc hmatch

/-- The head of a non-empty filter result is in the list and satisfies the
predicate. -/
theorem head_filter_matches {g : List Node} {P : Node → Bool} {c : Node}
    {rest : List Node} (h : g.filter P = c :: rest) : c ∈ g ∧ P c = true := by
  have hcf : c ∈ g.filter P := by
    rw [h]
    exact List.mem_cons_self c rest
  exact List.mem_filter.mp hcf

/-- A node returned by the prefix query matches the exact query keyed by its
own name. -/
theorem starts_mem_exact_self {g : List Node} {L pre : PyStr} {c : Node}
    {rest : List Node}
    (hfilter : g.filter (nodeMatchesStarts L pre) = c :: rest) :
    c ∈ g ∧ nodeMatchesExact L c.name c = true := by
  have hcf : c ∈ g.filter (nodeMatchesStarts L pre) := by
    rw [hfilter]
    exact List.mem_cons_self c rest
  obtain ⟨hcg, hcm⟩ := List.mem_filter.mp hcf
  refine ⟨hcg, ?_⟩
  simp only [nodeMatchesStarts, Bool.and_eq_true] at hcm
  simp [nodeMatchesExact, hcm.1]

theorem adjust_wod_notfound (i : UserInfo) (s : TxState) (hu : i.username ≠ [])
    (hfilter : s.graph.filter (nodeMatchesStarts (py_account_type i.username)
      (py_account_name i.username none)) = []) :
    _adjust_webclient_property_without_domain i s =
      .ok { s with
              queries := s.queries ++ [Query.matchStarts (py_account_type i.username)
                (py_account_name i.username none)],
              log := s.log ++ [⟨Channel.fail, accountNotFoundMsg⟩] } := by
  unfold _adjust_webclient_property_without_domain
  rw [parse_ok _ _ hu]
  simp [run_match_starts, hfilter, logFail]

theorem adjust_wod_ambiguous (i : UserInfo) (s : TxState) (c c' : Node)
    (rest : List Node) (hu : i.username ≠ [])
    (hfilter : s.graph.filter (nodeMatchesStarts (py_account_type i.username)
      (py_account_name i.username none)) = c :: c' :: rest) :
    _adjust_webclient_property_without_domain i s =
      .error (.typeError, { s with
        queries := s.queries ++ [Query.matchStarts (py_account_type i.username)
          (py_account_name i.username none)] }) := by
  unfold _adjust_webclient_property_without_domain
  rw [parse_ok _ _ hu]
  simp [run_match_starts, hfilter]

theorem adjust_wod_already (i : UserInfo) (s : TxState) (c : Node)
    (hu : i.username ≠ [])
    (hfilter : s.graph.filter (nodeMatchesStarts (py_account_type i.username)
      (py_account_name i.username none)) = [c])
    (hval : c.get (ps "webclientrunning") = some true) :
    _adjust_webclient_property_without_domain i s =
      .ok { s with
              queries := s.queries ++ [Query.matchStarts (py_account_type i.username)
                (py_account_name i.username none)] } := by
  unfold _adjust_webclient_property_without_domain
  rw [parse_ok _ _ hu]
  simp [run_match_starts, hfilter, hval]

theorem adjust_wod_update (i : UserInfo) (s : TxState) (c : Node)
    (hu : i.username ≠ [])
    (hfilter : s.graph.filter (nodeMatchesStarts (py_account_type i.username)
      (py_account_name i.username none)) = [c])
    (hval : c.get (ps "webclientrunning") ≠ some true) :
    _adjust_webclient_property_without_domain i s =
      .ok { s with
              graph := s.graph.map (setPropOnNode (py_account_type i.username)
                c.name (ps "webclientrunning") true),
              queries := s.queries ++ [Query.matchStarts (py_account_type i.username)
                  (py_account_name i.username none),
                Query.setProp (py_account_type i.username) c.name (ps "webclientrunning") true],
              log := s.log ++ [⟨Channel.debug, webclientSetQueryMsg (py_account_type i.username)
                  c.name⟩,
                ⟨Channel.highlight, webclientHighlightMsg c.name⟩] } := by
  obtain ⟨hcg, hcm⟩ := starts_mem_exact_self hfilter
  unfold _adjust_webclient_property_without_domain
  rw [parse_ok _ _ hu]
  rcases hnames : (s.graph.filter (nodeMatchesExact (py_account_type i.username) c.name)).map
      Node.name with _ | ⟨nm', tl⟩
  · exact absurd hnames (exact_filter_names_ne_nil hcg hcm)
  · have hnm : nm' = c.name := by
      apply mem_exact_filter_names (g := s.graph) (L := py_account_type i.username)
      rw [hnames]
      exact List.mem_cons_self nm' tl
    subst hnm
    rcases hg : c.get (ps "webclientrunning") with _ | b
    · simp [run_match_starts, hfilter, hg, logDebug, run_set_prop, hnames, logHighlight]
    · cases b
      · simp [run_match_starts, hfilter, hg, logDebug, run_set_prop, hnames, logHighlight]
      · exact absurd hg hval

theorem add_wd_notfound (i : UserInfo) (d : PyStr) (s : TxState)
    (hu : i.username ≠ [])
    (hfilter : s.graph.filter (nodeMatchesExact (py_account_type i.username)
      (py_account_name i.username (some d))) = []) :
    _add_with_domain i d s =
      .ok { s with
              queries := s.queries ++ [Query.matchExact (py_account_type i.username)
                (py_account_name i.username (some d))],
              log := s.log ++ [⟨Channel.fail, accountNotFoundMsg⟩] } := by
  unfold _add_with_domain
  rw [parse_ok _ _ hu]
  simp [run_match_exact, hfilter, logFail]

theorem add_wd_already (i : UserInfo) (d : PyStr) (s : TxState) (c : Node)
    (rest : List Node) (hu : i.username ≠ [])
    (hfilter : s.graph.filter (nodeMatchesExact (py_account_type i.username)
      (py_account_name i.username (some d))) = c :: rest)
    (hval : c.get (ps "owned") = some true) :
    _add_with_domain i d s =
      .ok { s with
              queries := s.queries ++ [Query.matchExact (py_account_type i.username)
                (py_account_name i.username (some d))] } := by
  unfold _add_with_domain
  rw [parse_ok _ _ hu]
  simp [run_match_exact, hfilter, hval]

theorem add_wd_update (i : UserInfo) (d : PyStr) (s : TxState) (c : Node)
    (rest : List Node) (hu : i.username ≠ [])
    (hfilter : s.graph.filter (nodeMatchesExact (py_account_type i.username)
      (py_account_name i.username (some d))) = c :: rest)
    (hval : c.get (ps "owned") ≠ some true) :
    _add_with_domain i d s =
      .ok { s with
              graph := s.graph.map (setPropOnNode (py_account_type i.username)
                (py_account_name i.username (some d)) (ps "owned") true),
              queries := s.queries ++ [Query.matchExact (py_account_type i.username)
                  (py_account_name i.username (some d)),
                Query.setProp (py_account_type i.username)
                  (py_account_name i.username (some d)) (ps "owned") true],
              log := s.log ++ [⟨Channel.debug, ownedSetQueryMsg (py_account_type i.username)
                  (py_account_name i.username (some d))⟩,
                ⟨Channel.highlight, ownedHighlightMsg c.name⟩] } := by
  unfold _add_with_domain
  rw [parse_ok _ _ hu]
  rcases hg : c.get (ps "owned") with _ | b
  · simp [run_match_exact, hfilter, hg, logDebug, run_set_prop, logHighlight]
  · cases b
    · simp [run_match_exact, hfilter, hg, logDebug, run_set_prop, logHighlight]
    · exact absurd hg hval

theorem add_wod_notfound (i : UserInfo) (s : TxState) (hu : i.username ≠ [])
    (hfilter : s.graph.filter (nodeMatchesStarts (py_account_type i.username)
      (py_account_name i.username none)) = []) :
    _add_without_domain i s =
      .ok { s with
              queries := s.queries ++ [Query.matchStarts (py_account_type i.username)
                (py_account_name i.username none)],
              log := s.log ++ [⟨Channel.fail, accountNotFoundMsg⟩] } := by
  unfold _add_without_domain
  rw [parse_ok _ _ hu]
  simp [run_match_starts, hfilter, logFail]

theorem add_wod_ambiguous (i : UserInfo) (s : TxState) (c c' : Node)
    (rest : List Node) (hu : i.username ≠ [])
    (hfilter : s.graph.filter (nodeMatchesStarts (py_account_type i.username)
      (py_account_name i.username none)) = c :: c' :: rest) :
    _add_without_domain i s =
      .ok { s with
              queries := s.queries ++ [Query.matchStarts (py_account_type i.username)
                (py_account_name i.username none)],
              log := s.log ++ [⟨Channel.fail, multipleAccountsMsg i.username⟩] } := by
  unfold _add_without_domain
  rw [parse_ok _ _ hu]
  simp [run_match_starts, hfilter, logFail]

theorem add_wod_already (i : UserInfo) (s : TxState) (c : Node)
    (hu : i.username ≠ [])
    (hfilter : s.graph.filter (nodeMatchesStarts (py_account_type i.username)
      (py_account_name i.username none)) = [c])
    (hval : c.get (ps "owned") = some true) :
    _add_without_domain i s =
      .ok { s with
              queries := s.queries ++ [Query.matchStarts (py_account_type i.username)
                (py_account_name i.username none)] } := by
  unfold _add_without_domain
  rw [parse_ok _ _ hu]
  simp [run_match_starts, hfilter, hval]

theorem add_wod_update (i : UserInfo) (s : TxState) (c : Node)
    (hu : i.username ≠ [])
    (hfilter : s.graph.filter (nodeMatchesStarts (py_account_type i.username)
      (py_account_name i.username none)) = [c])
    (hval : c.get (ps "owned") ≠ some true) :
    _add_without_domain i s =
      .ok { s with
              graph := s.graph.map (setPropOnNode (py_account_type i.username)
                c.name (ps "owned") true),
              queries := s.queries ++ [Query.matchStarts (py_account_type i.username)
                  (py_account_name i.username none),
                Query.setProp (py_account_type i.username) c.name (ps "owned") true],
              log := s.log ++ [⟨Channel.debug, ownedSetQueryMsg (py_account_type i.username)
                  c.name⟩,
                ⟨Channel.highlight, ownedHighlightMsg c.name⟩] } := by
  obtain ⟨hcg, hcm⟩ := starts_mem_exact_self hfilter
  unfold _add_without_domain
  rw [parse_ok _ _ hu]
  rcases hnames : (s.graph.filter (nodeMatchesExact (py_account_type i.username) c.name)).map
      Node.name with _ | ⟨nm', tl⟩
  · exact absurd hnames (exact_filter_names_ne_nil hcg hcm)
  · have hnm : nm' = c.name := by
      apply mem_exact_filter_names (g := s.graph) (L := py_account_type i.username)
      rw [hnames]
      exact List.mem_cons_self nm' tl
    subst hnm
    rcases hg : c.get (ps "owned") with _ | b
    · simp [run_match_starts, hfilter, hg, logDebug, run_set_prop, hnames, logHighlight]
    · cases b
      · simp [run_match_starts, hfilter, hg, logDebug, run_set_prop, hnames, logHighlight]
      · exact absurd hg hval

/-! ### Dispatch and plumbing lemmas -/

theorem process_machine_webclient_found (i : UserInfo) (s : TxState) (d : Node)
    (ds : List Node)
    (hdom : s.graph.filter (domainMatches (derive_dn i.domain)) = d :: ds) :
    process_machine_webclient i s =
      _adjust_webclient_property_with_domain i d.name
        { s with queries := s.queries ++ [Query.domainCheck (derive_dn i.domain)] } := by
  unfold process_machine_webclient _does_domain_exist_in_bloodhound
  simp [hdom]

theorem process_machine_webclient_nodomain (i : UserInfo) (s : TxState)
    (hdom : s.graph.filter (domainMatches (derive_dn i.domain)) = []) :
    process_machine_webclient i s =
      _adjust_webclient_property_without_domain i
        { s with
            queries := s.queries ++ [Query.domainCheck (derive_dn i.domain)],
            log := s.log ++ [⟨Channel.debug, domainFallbackMsg i.domain⟩] } := by
  unfold process_machine_webclient _does_domain_exist_in_bloodhound
  simp [hdom, logDebug]

theorem process_user_add_found (i : UserInfo) (s : TxState) (d : Node)
    (ds : List Node)
    (hdom : s.graph.filter (domainMatches (derive_dn i.domain)) = d :: ds) :
    process_user_add i s =
      _add_with_domain i d.name
        { s with queries := s.queries ++ [Query.domainCheck (derive_dn i.domain)] } := by
  unfold process_user_add _does_domain_exist_in_bloodhound
  simp [hdom]

theorem process_user_add_nodomain (i : UserInfo) (s : TxState)
    (hdom : s.graph.filter (domainMatches (derive_dn i.domain)) = []) :
    process_user_add i s =
      _add_without_domain i
        { s with
            queries := s.queries ++ [Query.domainCheck (derive_dn i.domain)],
            log := s.log ++ [⟨Channel.debug, domainFallbackMsg i.domain⟩] } := by
  unfold process_user_add _does_domain_exist_in_bloodhound
  simp [hdom, logDebug]

theorem process_list_webclient_singleton (i : UserInfo) (s : TxState) :
    process_list_webclient [i] s = process_machine_webclient i s := by
  simp only [process_list_webclient]
  rcases process_machine_webclient i s with ⟨e, ts⟩ | s' <;> rfl

theorem process_list_add_singleton (i : UserInfo) (s : TxState) :
    process_list_add [i] s = process_user_add i s := by
  simp only [process_list_add]
  rcases process_user_add i s with ⟨e, ts⟩ | s' <;> rfl

theorem mark_single_ok (u d : PyStr) (cfg : BHConfig) (w : World) (ts : TxState)
    (hen : cfg.bh_enabled ≠ ps "False")
    (hok : process_machine_webclient ⟨pyUpper u, pyUpper d⟩ ⟨w.graph, w.queries, w.log⟩ =
      .ok ts) :
    mark_web_client_enabled (.single u) d cfg none w =
      ⟨ts.graph, ts.queries, ts.log, w.opened + 1, w.closed + 1⟩ := by
  unfold mark_web_client_enabled
  rw [if_pos hen]
  simp only [process_list_webclient_singleton, hok]

theorem mark_single_error (u d : PyStr) (cfg : BHConfig) (w : World) (e : PyExc)
    (ts : TxState) (hen : cfg.bh_enabled ≠ ps "False")
    (herr : process_machine_webclient ⟨pyUpper u, pyUpper d⟩ ⟨w.graph, w.queries, w.log⟩ =
      .error (e, ts)) :
    mark_web_client_enabled (.single u) d cfg none w =
      ⟨w.graph, ts.queries,
        ts.log ++ [⟨Channel.fail, failMessageFor cfg (_initiate_bloodhound_connection cfg) e⟩],
        w.opened + 1, w.closed + 1⟩ := by
  unfold mark_web_client_enabled
  rw [if_pos hen]
  simp only [process_list_webclient_singleton, herr]

theorem add_single_ok (u d : PyStr) (cfg : BHConfig) (w : World) (ts : TxState)
    (hen : cfg.bh_enabled ≠ ps "False")
    (hok : process_user_add ⟨pyUpper u, pyUpper d⟩ ⟨w.graph, w.queries, w.log⟩ = .ok ts) :
    add_user_bh (.single u) d cfg none w =
      ⟨ts.graph, ts.queries, ts.log, w.opened + 1, w.closed + 1⟩ := by
  unfold add_user_bh
  rw [if_pos hen]
  simp only [process_list_add_singleton, hok]

theorem add_single_error (u d : PyStr) (cfg : BHConfig) (w : World) (e : PyExc)
    (ts : TxState) (hen : cfg.bh_enabled ≠ ps "False")
    (herr : process_user_add ⟨pyUpper u, pyUpper d⟩ ⟨w.graph, w.queries, w.log⟩ =
      .error (e, ts)) :
    add_user_bh (.single u) d cfg none w =
      ⟨w.graph, ts.queries,
        ts.log ++ [⟨Channel.fail, failMessageFor cfg (_initiate_bloodhound_connection cfg) e⟩],
        w.opened + 1, w.closed + 1⟩ := by
  unfold add_user_bh
  rw [if_pos hen]
  simp only [process_list_add_singleton, herr]

/-! ### Idempotence of the mark-operations -/

/-- Running `op` twice from `w`: the first run issues the resolution queries
`q₁` followed by exactly the one write `wq` and emits `log₁` (the `Updated`
outcome); the second run issues only the resolution queries `q₂` with no
write and emits `log₂` (the `AlreadySet` outcome); and the stored graph is
identical after either run. -/
def UpdatedThenAlreadySet (op : World → World) (w : World)
    (q₁ q₂ : List Query) (wq : Query) (log₁ log₂ : List LogEntry) : Prop :=
  (op w).queries = w.queries ++ q₁ ++ [wq] ∧
  (∀ L nm p v, Query.setProp L nm p v ∉ q₁) ∧
  (op w).log = w.log ++ log₁ ∧
  (op (op w)).queries = (op w).queries ++ q₂ ∧
  (∀ L nm p v, Query.setProp L nm p v ∉ q₂) ∧
  (op (op w)).log = (op w).log ++ log₂ ∧
  (∀ e ∈ log₂, e.ch = Channel.debug) ∧
  (op (op w)).graph = (op w).graph

theorem mark_webclient_twice_domain (w : World) (cfg : BHConfig) (u d : PyStr)
    (c dnode : Node) (ds : List Node)
    (hen : cfg.bh_enabled ≠ ps "False") (hu : pyUpper u ≠ [])
    (hdom : w.graph.filter (domainMatches (derive_dn (pyUpper d))) = dnode :: ds)
    (hfilter : w.graph.filter (nodeMatchesExact (py_account_type (pyUpper u))
      (py_account_name (pyUpper u) (some dnode.name))) = [c])
    (hval : c.get (ps "webclientrunning") ≠ some true) :
    UpdatedThenAlreadySet (mark_web_client_enabled (.single u) d cfg none) w
      [Query.domainCheck (derive_dn (pyUpper d)),
        Query.matchExact (py_account_type (pyUpper u))
          (py_account_name (pyUpper u) (some dnode.name))]
      [Query.domainCheck (derive_dn (pyUpper d)),
        Query.matchExact (py_account_type (pyUpper u))
          (py_account_name (pyUpper u) (some dnode.name))]
      (Query.setProp (py_account_type (pyUpper u))
        (py_account_name (pyUpper u) (some dnode.name)) (ps "webclientrunning") true)
      [⟨Channel.debug, webclientSetQueryMsg (py_account_type (pyUpper u))
          (py_account_name (pyUpper u) (some dnode.name))⟩,
        ⟨Channel.highlight, webclientHighlightMsg c.name⟩]
      [] := by
  have hi : (⟨pyUpper u, pyUpper d⟩ : UserInfo).username ≠ [] := hu
  -- the single normalized record and the shorthand for the matched pair
  set A := py_account_type (pyUpper u) with hA
  set C := py_account_name (pyUpper u) (some dnode.name) with hC
  have hcmem := head_filter_matches hfilter
  -- first run
  have h1 := process_machine_webclient_found ⟨pyUpper u, pyUpper d⟩
    ⟨w.graph, w.queries, w.log⟩ dnode ds hdom
  have h2 := adjust_wd_update ⟨pyUpper u, pyUpper d⟩ dnode.name
    { graph := w.graph, queries := w.queries ++ [Query.domainCheck (derive_dn (pyUpper d))],
      log := w.log } c [] hi hfilter hval
  have hproc1 : process_machine_webclient ⟨pyUpper u, pyUpper d⟩
      ⟨w.graph, w.queries, w.log⟩ = .ok
        { graph := w.graph.map (setPropOnNode A C (ps "webclientrunning") true),
          queries := (w.queries ++ [Query.domainCheck (derive_dn (pyUpper d))]) ++
            [Query.matchExact A C, Query.setProp A C (ps "webclientrunning") true],
          log := w.log ++ [⟨Channel.debug, webclientSetQueryMsg A C⟩,
            ⟨Channel.highlight, webclientHighlightMsg c.name⟩] } := by
    rw [h1, h2]
  have hw1 := mark_single_ok u d cfg w _ hen hproc1
  -- second run: the write commuted past both filters
  have hupd := filter_map_setProp (domainMatches (derive_dn (pyUpper d))) A C
    (ps "webclientrunning") true
    (fun n => domainMatches_setProp (derive_dn (pyUpper d)) A C (ps "webclientrunning") true n)
    w.graph
  have hdom2 : (w.graph.map (setPropOnNode A C (ps "webclientrunning") true)).filter
      (domainMatches (derive_dn (pyUpper d))) =
      setPropOnNode A C (ps "webclientrunning") true dnode ::
        ds.map (setPropOnNode A C (ps "webclientrunning") true) := by
    rw [hupd, hdom]
    rfl
  have hfilter2 : (w.graph.map (setPropOnNode A C (ps "webclientrunning") true)).filter
      (nodeMatchesExact A C) = [setPropOnNode A C (ps "webclientrunning") true c] := by
    rw [filter_map_setProp (nodeMatchesExact A C) A C (ps "webclientrunning") true
      (fun n => nodeMatchesExact_setProp A C A C (ps "webclientrunning") true n) w.graph,
      hfilter]
    rfl
  have hval2 : (setPropOnNode A C (ps "webclientrunning") true c).get
      (ps "webclientrunning") = some true := by
    rw [Node.get_setPropOnNode_same, if_pos hcmem.2]
  have hname : (setPropOnNode A C (ps "webclientrunning") true dnode).name = dnode.name :=
    setPropOnNode_name A C (ps "webclientrunning") true dnode
  have h1b := process_machine_webclient_found ⟨pyUpper u, pyUpper d⟩
    ⟨w.graph.map (setPropOnNode A C (ps "webclientrunning") true),
      (w.queries ++ [Query.domainCheck (derive_dn (pyUpper d))]) ++
        [Query.matchExact A C, Query.setProp A C (ps "webclientrunning") true],
      w.log ++ [⟨Channel.debug, webclientSetQueryMsg A C⟩,
        ⟨Channel.highlight, webclientHighlightMsg c.name⟩]⟩
    (setPropOnNode A C (ps "webclientrunning") true dnode)
    (ds.map (setPropOnNode A C (ps "webclientrunning") true)) hdom2
  rw [hname] at h1b
  have h2b := adjust_wd_already ⟨pyUpper u, pyUpper d⟩ dnode.name
    { graph := w.graph.map (setPropOnNode A C (ps "webclientrunning") true),
      queries := ((w.queries ++ [Query.domainCheck (derive_dn (pyUpper d))]) ++
        [Query.matchExact A C, Query.setProp A C (ps "webclientrunning") true]) ++
        [Query.domainCheck (derive_dn (pyUpper d))],
      log := w.log ++ [⟨Channel.debug, webclientSetQueryMsg A C⟩,
        ⟨Channel.highlight, webclientHighlightMsg c.name⟩] }
    (setPropOnNode A C (ps "webclientrunning") true c) [] hi hfilter2 hval2
  have hproc2 : process_machine_webclient ⟨pyUpper u, pyUpper d⟩
      ⟨w.graph.map (setPropOnNode A C (ps "webclientrunning") true),
        (w.queries ++ [Query.domainCheck (derive_dn (pyUpper d))]) ++
          [Query.matchExact A C, Query.setProp A C (ps "webclientrunning") true],
        w.log ++ [⟨Channel.debug, webclientSetQueryMsg A C⟩,
          ⟨Channel.highlight, webclientHighlightMsg c.name⟩]⟩ = .ok
        { graph := w.graph.map (setPropOnNode A C (ps "webclientrunning") true),
          queries := (((w.queries ++ [Query.domainCheck (derive_dn (pyUpper d))]) ++
            [Query.matchExact A C, Query.setProp A C (ps "webclientrunning") true]) ++
            [Query.domainCheck (derive_dn (pyUpper d))]) ++ [Query.matchExact A C],
          log := w.log ++ [⟨Channel.debug, webclientSetQueryMsg A C⟩,
            ⟨Channel.highlight, webclientHighlightMsg c.name⟩] } := by
    rw [h1b, h2b]
  have hw2 := mark_single_ok u d cfg
    ⟨w.graph.map (setPropOnNode A C (ps "webclientrunning") true),
      (w.queries ++ [Query.domainCheck (derive_dn (pyUpper d))]) ++
        [Query.matchExact A C, Query.setProp A C (ps "webclientrunning") true],
      w.log ++ [⟨Channel.debug, webclientSetQueryMsg A C⟩,
        ⟨Channel.highlight, webclientHighlightMsg c.name⟩],
      w.opened + 1, w.closed + 1⟩ _ hen hproc2
  unfold UpdatedThenAlreadySet
  rw [hw1, hw2]
  refine ⟨by simp, by simp, by simp, by simp, by simp, by simp, by simp, by simp⟩

theorem mark_webclient_twice_nodomain (w : World) (cfg : BHConfig) (u d : PyStr)
    (c : Node)
    (hen : cfg.bh_enabled ≠ ps "False") (hu : pyUpper u ≠ [])
    (hdom : w.graph.filter (domainMatches (derive_dn (pyUpper d))) = [])
    (hfilter : w.graph.filter (nodeMatchesStarts (py_account_type (pyUpper u))
      (py_account_name (pyUpper u) none)) = [c])
    (hval : c.get (ps "webclientrunning") ≠ some true) :
    UpdatedThenAlreadySet (mark_web_client_enabled (.single u) d cfg none) w
      [Query.domainCheck (derive_dn (pyUpper d)),
        Query.matchStarts (py_account_type (pyUpper u)) (py_account_name (pyUpper u) none)]
      [Query.domainCheck (derive_dn (pyUpper d)),
        Query.matchStarts (py_account_type (pyUpper u)) (py_account_name (pyUpper u) none)]
      (Query.setProp (py_account_type (pyUpper u)) c.name (ps "webclientrunning") true)
      [⟨Channel.debug, domainFallbackMsg (pyUpper d)⟩,
        ⟨Channel.debug, webclientSetQueryMsg (py_account_type (pyUpper u)) c.name⟩,
        ⟨Channel.highlight, webclientHighlightMsg c.name⟩]
      [⟨Channel.debug, domainFallbackMsg (pyUpper d)⟩] := by
  have hi : (⟨pyUpper u, pyUpper d⟩ : UserInfo).username ≠ [] := hu
  set A := py_account_type (pyUpper u) with hA
  set C := py_account_name (pyUpper u) none with hC
  obtain ⟨hcg, hcex⟩ := starts_mem_exact_self hfilter
  -- first run
  have h1 := process_machine_webclient_nodomain ⟨pyUpper u, pyUpper d⟩
    ⟨w.graph, w.queries, w.log⟩ hdom
  have h2 := adjust_wod_update ⟨pyUpper u, pyUpper d⟩
    { graph := w.graph, queries := w.queries ++ [Query.domainCheck (derive_dn (pyUpper d))],
      log := w.log ++ [⟨Channel.debug, domainFallbackMsg (pyUpper d)⟩] } c hi hfilter hval
  have hproc1 : process_machine_webclient ⟨pyUpper u, pyUpper d⟩
      ⟨w.graph, w.queries, w.log⟩ = .ok
        { graph := w.graph.map (setPropOnNode A c.name (ps "webclientrunning") true),
          queries := (w.queries ++ [Query.domainCheck (derive_dn (pyUpper d))]) ++
            [Query.matchStarts A C, Query.setProp A c.name (ps "webclientrunning") true],
          log := (w.log ++ [⟨Channel.debug, domainFallbackMsg (pyUpper d)⟩]) ++
            [⟨Channel.debug, webclientSetQueryMsg A c.name⟩,
              ⟨Channel.highlight, webclientHighlightMsg c.name⟩] } := by
    rw [h1, h2]
  have hw1 := mark_single_ok u d cfg w _ hen hproc1
  -- second run
  have hdom2 : (w.graph.map (setPropOnNode A c.name (ps "webclientrunning") true)).filter
      (domainMatches (derive_dn (pyUpper d))) = [] := by
    rw [filter_map_setProp (domainMatches (derive_dn (pyUpper d))) A c.name
      (ps "webclientrunning") true
      (fun n => domainMatches_setProp (derive_dn (pyUpper d)) A c.name
        (ps "webclientrunning") true n) w.graph, hdom]
    rfl
  have hfilter2 : (w.graph.map (setPropOnNode A c.name (ps "webclientrunning") true)).filter
      (nodeMatchesStarts A C) = [setPropOnNode A c.name (ps "webclientrunning") true c] := by
    rw [filter_map_setProp (nodeMatchesStarts A C) A c.name (ps "webclientrunning") true
      (fun n => nodeMatchesStarts_setProp A C A c.name (ps "webclientrunning") true n) w.graph,
      hfilter]
    rfl
  have hval2 : (setPropOnNode A c.name (ps "webclientrunning") true c).get
      (ps "webclientrunning") = some true := by
    rw [Node.get_setPropOnNode_same, if_pos hcex]
  have hcname : (setPropOnNode A c.name (ps "webclientrunning") true c).name = c.name :=
    setPropOnNode_name A c.name (ps "webclientrunning") true c
  have h1b := process_machine_webclient_nodomain ⟨pyUpper u, pyUpper d⟩
    ⟨w.graph.map (setPropOnNode A c.name (ps "webclientrunning") true),
      (w.queries ++ [Query.domainCheck (derive_dn (pyUpper d))]) ++
        [Query.matchStarts A C, Query.setProp A c.name (ps "webclientrunning") true],
      (w.log ++ [⟨Channel.debug, domainFallbackMsg (pyUpper d)⟩]) ++
        [⟨Channel.debug, webclientSetQueryMsg A c.name⟩,
          ⟨Channel.highlight, webclientHighlightMsg c.name⟩]⟩ hdom2
  have h2b := adjust_wod_already ⟨pyUpper u, pyUpper d⟩
    { graph := w.graph.map (setPropOnNode A c.name (ps "webclientrunning") true),
      queries := ((w.queries ++ [Query.domainCheck (derive_dn (pyUpper d))]) ++
        [Query.matchStarts A C, Query.setProp A c.name (ps "webclientrunning") true]) ++
        [Query.domainCheck (derive_dn (pyUpper d))],
      log := ((w.log ++ [⟨Channel.debug, domainFallbackMsg (pyUpper d)⟩]) ++
        [⟨Channel.debug, webclientSetQueryMsg A c.name⟩,
          ⟨Channel.highlight, webclientHighlightMsg c.name⟩]) ++
        [⟨Channel.debug, domainFallbackMsg (pyUpper d)⟩] }
    (setPropOnNode A c.name (ps "webclientrunning") true c) hi hfilter2 hval2
  have hproc2 : process_machine_webclient ⟨pyUpper u, pyUpper d⟩
      ⟨w.graph.map (setPropOnNode A c.name (ps "webclientrunning") true),
        (w.queries ++ [Query.domainCheck (derive_dn (pyUpper d))]) ++
          [Query.matchStarts A C, Query.setProp A c.name (ps "webclientrunning") true],
        (w.log ++ [⟨Channel.debug, domainFallbackMsg (pyUpper d)⟩]) ++
          [⟨Channel.debug, webclientSetQueryMsg A c.name⟩,
            ⟨Channel.highlight, webclientHighlightMsg c.name⟩]⟩ = .ok
        { graph := w.graph.map (setPropOnNode A c.name (ps "webclientrunning") true),
          queries := (((w.queries ++ [Query.domainCheck (derive_dn (pyUpper d))]) ++
            [Query.matchStarts A C, Query.setProp A c.name (ps "webclientrunning") true]) ++
            [Query.domainCheck (derive_dn (pyUpper d))]) ++ [Query.matchStarts A C],
          log := ((w.log ++ [⟨Channel.debug, domainFallbackMsg (pyUpper d)⟩]) ++
            [⟨Channel.debug, webclientSetQueryMsg A c.name⟩,
              ⟨Channel.highlight, webclientHighlightMsg c.name⟩]) ++
            [⟨Channel.debug, domainFallbackMsg (pyUpper d)⟩] } := by
    rw [h1b, h2b]
  have hw2 := mark_single_ok u d cfg
    ⟨w.graph.map (setPropOnNode A c.name (ps "webclientrunning") true),
      (w.queries ++ [Query.domainCheck (derive_dn (pyUpper d))]) ++
        [Query.matchStarts A C, Query.setProp A c.name (ps "webclientrunning") true],
      (w.log ++ [⟨Channel.debug, domainFallbackMsg (pyUpper d)⟩]) ++
        [⟨Channel.debug, webclientSetQueryMsg A c.name⟩,
          ⟨Channel.highlight, webclientHighlightMsg c.name⟩],
      w.opened + 1, w.closed + 1⟩ _ hen hproc2
  unfold UpdatedThenAlreadySet
  rw [hw1, hw2]
  refine ⟨by simp, by simp, by simp, by simp, by simp, by simp, by simp, by simp⟩

theorem add_owned_twice_domain (w : World) (cfg : BHConfig) (u d : PyStr)
    (c dnode : Node) (ds : List Node)
    (hen : cfg.bh_enabled ≠ ps "False") (hu : pyUpper u ≠ [])
    (hdom : w.graph.filter (domainMatches (derive_dn (pyUpper d))) = dnode :: ds)
    (hfilter : w.graph.filter (nodeMatchesExact (py_account_type (pyUpper u))
      (py_account_name (pyUpper u) (some dnode.name))) = [c])
    (hval : c.get (ps "owned") ≠ some true) :
    UpdatedThenAlreadySet (add_user_bh (.single u) d cfg none) w
      [Query.domainCheck (derive_dn (pyUpper d)),
        Query.matchExact (py_account_type (pyUpper u))
          (py_account_name (pyUpper u) (some dnode.name))]
      [Query.domainCheck (derive_dn (pyUpper d)),
        Query.matchExact (py_account_type (pyUpper u))
          (py_account_name (pyUpper u) (some dnode.name))]
      (Query.setProp (py_account_type (pyUpper u))
        (py_account_name (pyUpper u) (some dnode.name)) (ps "owned") true)
      [⟨Channel.debug, ownedSetQueryMsg (py_account_type (pyUpper u))
          (py_account_name (pyUpper u) (some dnode.name))⟩,
        ⟨Channel.highlight, ownedHighlightMsg c.name⟩]
      [] := by
  have hi : (⟨pyUpper u, pyUpper d⟩ : UserInfo).username ≠ [] := hu
  -- the single normalized record and the shorthand for the matched pair
  set A := py_account_type (pyUpper u) with hA
  set C := py_account_name (pyUpper u) (some dnode.name) with hC
  have hcmem := head_filter_matches hfilter
  -- first run
  have h1 := process_user_add_found ⟨pyUpper u, pyUpper d⟩
    ⟨w.graph, w.queries, w.log⟩ dnode ds hdom
  have h2 := add_wd_update ⟨pyUpper u, pyUpper d⟩ dnode.name
    { graph := w.graph, queries := w.queries ++ [Query.domainCheck (derive_dn (pyUpper d))],
      log := w.log } c [] hi hfilter hval
  have hproc1 : process_user_add ⟨pyUpper u, pyUpper d⟩
      ⟨w.graph, w.queries, w.log⟩ = .ok
        { graph := w.graph.map (setPropOnNode A C (ps "owned") true),
          queries := (w.queries ++ [Query.domainCheck (derive_dn (pyUpper d))]) ++
            [Query.matchExact A C, Query.setProp A C (ps "owned") true],
          log := w.log ++ [⟨Channel.debug, ownedSetQueryMsg A C⟩,
            ⟨Channel.highlight, ownedHighlightMsg c.name⟩] } := by
    rw [h1, h2]
  have hw1 := add_single_ok u d cfg w _ hen hproc1
  -- second run: the write commuted past both filters
  have hupd := filter_map_setProp (domainMatches (derive_dn (pyUpper d))) A C
    (ps "owned") true
    (fun n => domainMatches_setProp (derive_dn (pyUpper d)) A C (ps "owned") true n)
    w.graph
  have hdom2 : (w.graph.map (setPropOnNode A C (ps "owned") true)).filter
      (domainMatches (derive_dn (pyUpper d))) =
      setPropOnNode A C (ps "owned") true dnode ::
        ds.map (setPropOnNode A C (ps "owned") true) := by
    rw [hupd, hdom]
    rfl
  have hfilter2 : (w.graph.map (setPropOnNode A C (ps "owned") true)).filter
      (nodeMatchesExact A C) = [setPropOnNode A C (ps "owned") true c] := by
    rw [filter_map_setProp (nodeMatchesExact A C) A C (ps "owned") true
      (fun n => nodeMatchesExact_setProp A C A C (ps "owned") true n) w.graph,
      hfilter]
    rfl
  have hval2 : (setPropOnNode A C (ps "owned") true c).get
      (ps "owned") = some true := by
    rw [Node.get_setPropOnNode_same, if_pos hcmem.2]
  have hname : (setPropOnNode A C (ps "owned") true dnode).name = dnode.name :=
    setPropOnNode_name A C (ps "owned") true dnode
  have h1b := process_user_add_found ⟨pyUpper u, pyUpper d⟩
    ⟨w.graph.map (setPropOnNode A C (ps "owned") true),
      (w.queries ++ [Query.domainCheck (derive_dn (pyUpper d))]) ++
        [Query.matchExact A C, Query.setProp A C (ps "owned") true],
      w.log ++ [⟨Channel.debug, ownedSetQueryMsg A C⟩,
        ⟨Channel.highlight, ownedHighlightMsg c.name⟩]⟩
    (setPropOnNode A C (ps "owned") true dnode)
    (ds.map (setPropOnNode A C (ps "owned") true)) hdom2
  rw [hname] at h1b
  have h2b := add_wd_already ⟨pyUpper u, pyUpper d⟩ dnode.name
    { graph := w.graph.map (setPropOnNode A C (ps "owned") true),
      queries := ((w.queries ++ [Query.domainCheck (derive_dn (pyUpper d))]) ++
        [Query.matchExact A C, Query.setProp A C (ps "owned") true]) ++
        [Query.domainCheck (derive_dn (pyUpper d))],
      log := w.log ++ [⟨Channel.debug, ownedSetQueryMsg A C⟩,
        ⟨Channel.highlight, ownedHighlightMsg c.name⟩] }
    (setPropOnNode A C (ps "owned") true c) [] hi hfilter2 hval2
  have hproc2 : process_user_add ⟨pyUpper u, pyUpper d⟩
      ⟨w.graph.map (setPropOnNode A C (ps "owned") true),
        (w.queries ++ [Query.domainCheck (derive_dn (pyUpper d))]) ++
          [Query.matchExact A C, Query.setProp A C (ps "owned") true],
        w.log ++ [⟨Channel.debug, ownedSetQueryMsg A C⟩,
          ⟨Channel.highlight, ownedHighlightMsg c.name⟩]⟩ = .ok
        { graph := w.graph.map (setPropOnNode A C (ps "owned") true),
          queries := (((w.queries ++ [Query.domainCheck (derive_dn (pyUpper d))]) ++
            [Query.matchExact A C, Query.setProp A C (ps "owned") true]) ++
            [Query.domainCheck (derive_dn (pyUpper d))]) ++ [Query.matchExact A C],
          log := w.log ++ [⟨Channel.debug, ownedSetQueryMsg A C⟩,
            ⟨Channel.highlight, ownedHighlightMsg c.name⟩] } := by
    rw [h1b, h2b]
  have hw2 := add_single_ok u d cfg
    ⟨w.graph.map (setPropOnNode A C (ps "owned") true),
      (w.queries ++ [Query.domainCheck (derive_dn (pyUpper d))]) ++
        [Query.matchExact A C, Query.setProp A C (ps "owned") true],
      w.log ++ [⟨Channel.debug, ownedSetQueryMsg A C⟩,
        ⟨Channel.highlight, ownedHighlightMsg c.name⟩],
      w.opened + 1, w.closed + 1⟩ _ hen hproc2
  unfold UpdatedThenAlreadySet
  rw [hw1, hw2]
  refine ⟨by simp, by simp, by simp, by simp, by simp, by simp, by simp, by simp⟩

theorem add_owned_twice_nodomain (w : World) (cfg : BHConfig) (u d : PyStr)
    (c : Node)
    (hen : cfg.bh_enabled ≠ ps "False") (hu : pyUpper u ≠ [])
    (hdom : w.graph.filter (domainMatches (derive_dn (pyUpper d))) = [])
    (hfilter : w.graph.filter (nodeMatchesStarts (py_account_type (pyUpper u))
      (py_account_name (pyUpper u) none)) = [c])
    (hval : c.get (ps "owned") ≠ some true) :
    UpdatedThenAlreadySet (add_user_bh (.single u) d cfg none) w
      [Query.domainCheck (derive_dn (pyUpper d)),
        Query.matchStarts (py_account_type (pyUpper u)) (py_account_name (pyUpper u) none)]
      [Query.domainCheck (derive_dn (pyUpper d)),
        Query.matchStarts (py_account_type (pyUpper u)) (py_account_name (pyUpper u) none)]
      (Query.setProp (py_account_type (pyUpper u)) c.name (ps "owned") true)
      [⟨Channel.debug, domainFallbackMsg (pyUpper d)⟩,
        ⟨Channel.debug, ownedSetQueryMsg (py_account_type (pyUpper u)) c.name⟩,
        ⟨Channel.highlight, ownedHighlightMsg c.name⟩]
      [⟨Channel.debug, domainFallbackMsg (pyUpper d)⟩] := by
  have hi : (⟨pyUpper u, pyUpper d⟩ : UserInfo).username ≠ [] := hu
  set A := py_account_type (pyUpper u) with hA
  set C := py_account_name (pyUpper u) none with hC
  obtain ⟨hcg, hcex⟩ := starts_mem_exact_self hfilter
  -- first run
  have h1 := process_user_add_nodomain ⟨pyUpper u, pyUpper d⟩
    ⟨w.graph, w.queries, w.log⟩ hdom
  have h2 := add_wod_update ⟨pyUpper u, pyUpper d⟩
    { graph := w.graph, queries := w.queries ++ [Query.domainCheck (derive_dn (pyUpper d))],
      log := w.log ++ [⟨Channel.debug, domainFallbackMsg (pyUpper d)⟩] } c hi hfilter hval
  have hproc1 : process_user_add ⟨pyUpper u, pyUpper d⟩
      ⟨w.graph, w.queries, w.log⟩ = .ok
        { graph := w.graph.map (setPropOnNode A c.name (ps "owned") true),
          queries := (w.queries ++ [Query.domainCheck (derive_dn (pyUpper d))]) ++
            [Query.matchStarts A C, Query.setProp A c.name (ps "owned") true],
          log := (w.log ++ [⟨Channel.debug, domainFallbackMsg (pyUpper d)⟩]) ++
            [⟨Channel.debug, ownedSetQueryMsg A c.name⟩,
              ⟨Channel.highlight, ownedHighlightMsg c.name⟩] } := by
    rw [h1, h2]
  have hw1 := add_single_ok u d cfg w _ hen hproc1
  -- second run
  have hdom2 : (w.graph.map (setPropOnNode A c.name (ps "owned") true)).filter
      (domainMatches (derive_dn (pyUpper d))) = [] := by
    rw [filter_map_setProp (domainMatches (derive_dn (pyUpper d))) A c.name
      (ps "owned") true
      (fun n => domainMatches_setProp (derive_dn (pyUpper d)) A c.name
        (ps "owned") true n) w.graph, hdom]
    rfl
  have hfilter2 : (w.graph.map (setPropOnNode A c.name (ps "owned") true)).filter
      (nodeMatchesStarts A C) = [setPropOnNode A c.name (ps "owned") true c] := by
    rw [filter_map_setProp (nodeMatchesStarts A C) A c.name (ps "owned") true
      (fun n => nodeMatchesStarts_setProp A C A c.name (ps "owned") true n) w.graph,
      hfilter]
    rfl
  have hval2 : (setPropOnNode A c.name (ps "owned") true c).get
      (ps "owned") = some true := by
    rw [Node.get_setPropOnNode_same, if_pos hcex]
  have hcname : (setPropOnNode A c.name (ps "owned") true c).name = c.name :=
    setPropOnNode_name A c.name (ps "owned") true c
  have h1b := process_user_add_nodomain ⟨pyUpper u, pyUpper d⟩
    ⟨w.graph.map (setPropOnNode A c.name (ps "owned") true),
      (w.queries ++ [Query.domainCheck (derive_dn (pyUpper d))]) ++
        [Query.matchStarts A C, Query.setProp A c.name (ps "owned") true],
      (w.log ++ [⟨Channel.debug, domainFallbackMsg (pyUpper d)⟩]) ++
        [⟨Channel.debug, ownedSetQueryMsg A c.name⟩,
          ⟨Channel.highlight, ownedHighlightMsg c.name⟩]⟩ hdom2
  have h2b := add_wod_already ⟨pyUpper u, pyUpper d⟩
    { graph := w.graph.map (setPropOnNode A c.name (ps "owned") true),
      queries := ((w.queries ++ [Query.domainCheck (derive_dn (pyUpper d))]) ++
        [Query.matchStarts A C, Query.setProp A c.name (ps "owned") true]) ++
        [Query.domainCheck (derive_dn (pyUpper d))],
      log := ((w.log ++ [⟨Channel.debug, domainFallbackMsg (pyUpper d)⟩]) ++
        [⟨Channel.debug, ownedSetQueryMsg A c.name⟩,
          ⟨Channel.highlight, ownedHighlightMsg c.name⟩]) ++
        [⟨Channel.debug, domainFallbackMsg (pyUpper d)⟩] }
    (setPropOnNode A c.name (ps "owned") true c) hi hfilter2 hval2
  have hproc2 : process_user_add ⟨pyUpper u, pyUpper d⟩
      ⟨w.graph.map (setPropOnNode A c.name (ps "owned") true),
        (w.queries ++ [Query.domainCheck (derive_dn (pyUpper d))]) ++
          [Query.matchStarts A C, Query.setProp A c.name (ps "owned") true],
        (w.log ++ [⟨Channel.debug, domainFallbackMsg (pyUpper d)⟩]) ++
          [⟨Channel.debug, ownedSetQueryMsg A c.name⟩,
            ⟨Channel.highlight, ownedHighlightMsg c.name⟩]⟩ = .ok
        { graph := w.graph.map (setPropOnNode A c.name (ps "owned") true),
          queries := (((w.queries ++ [Query.domainCheck (derive_dn (pyUpper d))]) ++
            [Query.matchStarts A C, Query.setProp A c.name (ps "owned") true]) ++
            [Query.domainCheck (derive_dn (pyUpper d))]) ++ [Query.matchStarts A C],
          log := ((w.log ++ [⟨Channel.debug, domainFallbackMsg (pyUpper d)⟩]) ++
            [⟨Channel.debug, ownedSetQueryMsg A c.name⟩,
              ⟨Channel.highlight, ownedHighlightMsg c.name⟩]) ++
            [⟨Channel.debug, domainFallbackMsg (pyUpper d)⟩] } := by
    rw [h1b, h2b]
  have hw2 := add_single_ok u d cfg
    ⟨w.graph.map (setPropOnNode A c.name (ps "owned") true),
      (w.queries ++ [Query.domainCheck (derive_dn (pyUpper d))]) ++
        [Query.matchStarts A C, Query.setProp A c.name (ps "owned") true],
      (w.log ++ [⟨Channel.debug, domainFallbackMsg (pyUpper d)⟩]) ++
        [⟨Channel.debug, ownedSetQueryMsg A c.name⟩,
          ⟨Channel.highlight, ownedHighlightMsg c.name⟩],
      w.opened + 1, w.closed + 1⟩ _ hen hproc2
  unfold UpdatedThenAlreadySet
  rw [hw1, hw2]
  refine ⟨by simp, by simp, by simp, by simp, by simp, by simp, by simp, by simp⟩

/-- Claim C1: for every public mark-operation (`mark_web_client_enabled`,
`add_user_bh`) and every resolved single node — via the domain-qualified
exact match or the domainless prefix match — a property write is issued only
when the node's stored value differs from the desired value `true`; calling
the same operation twice with the same account and domain yields an
`Updated` outcome (one write, one highlight) the first time and an
`AlreadySet` outcome (no write, no highlight) the second time, and the
stored graph is identical after either call. -/
theorem claim_C1_mark_operations_idempotent
    (w : World) (cfg : BHConfig) (u d : PyStr) (c : Node)
    (hen : cfg.bh_enabled ≠ ps "False") (hu : pyUpper u ≠ []) :
    (∀ dnode ds,
      w.graph.filter (domainMatches (derive_dn (pyUpper d))) = dnode :: ds →
      w.graph.filter (nodeMatchesExact (py_account_type (pyUpper u))
        (py_account_name (pyUpper u) (some dnode.name))) = [c] →
      c.get (ps "webclientrunning") ≠ some true →
      UpdatedThenAlreadySet (mark_web_client_enabled (.single u) d cfg none) w
        [Query.domainCheck (derive_dn (pyUpper d)),
          Query.matchExact (py_account_type (pyUpper u))
            (py_account_name (pyUpper u) (some dnode.name))]
        [Query.domainCheck (derive_dn (pyUpper d)),
          Query.matchExact (py_account_type (pyUpper u))
            (py_account_name (pyUpper u) (some dnode.name))]
        (Query.setProp (py_account_type (pyUpper u))
          (py_account_name (pyUpper u) (some dnode.name)) (ps "webclientrunning") true)
        [⟨Channel.debug, webclientSetQueryMsg (py_account_type (pyUpper u))
            (py_account_name (pyUpper u) (some dnode.name))⟩,
          ⟨Channel.highlight, webclientHighlightMsg c.name⟩]
        []) ∧
    (w.graph.filter (domainMatches (derive_dn (pyUpper d))) = [] →
      w.graph.filter (nodeMatchesStarts (py_account_type (pyUpper u))
        (py_account_name (pyUpper u) none)) = [c] →
      c.get (ps "webclientrunning") ≠ some true →
      UpdatedThenAlreadySet (mark_web_client_enabled (.single u) d cfg none) w
        [Query.domainCheck (derive_dn (pyUpper d)),
          Query.matchStarts (py_account_type (pyUpper u)) (py_account_name (pyUpper u) none)]
        [Query.domainCheck (derive_dn (pyUpper d)),
          Query.matchStarts (py_account_type (pyUpper u)) (py_account_name (pyUpper u) none)]
        (Query.setProp (py_account_type (pyUpper u)) c.name (ps "webclientrunning") true)
        [⟨Channel.debug, domainFallbackMsg (pyUpper d)⟩,
          ⟨Channel.debug, webclientSetQueryMsg (py_account_type (pyUpper u)) c.name⟩,
          ⟨Channel.highlight, webclientHighlightMsg c.name⟩]
        [⟨Channel.debug, domainFallbackMsg (pyUpper d)⟩]) ∧
    (∀ dnode ds,
      w.graph.filter (domainMatches (derive_dn (pyUpper d))) = dnode :: ds →
      w.graph.filter (nodeMatchesExact (py_account_type (pyUpper u))
        (py_account_name (pyUpper u) (some dnode.name))) = [c] →
      c.get (ps "owned") ≠ some true →
      UpdatedThenAlreadySet (add_user_bh (.single u) d cfg none) w
        [Query.domainCheck (derive_dn (pyUpper d)),
          Query.matchExact (py_account_type (pyUpper u))
            (py_account_name (pyUpper u) (some dnode.name))]
        [Query.domainCheck (derive_dn (pyUpper d)),
          Query.matchExact (py_account_type (pyUpper u))
            (py_account_name (pyUpper u) (some dnode.name))]
        (Query.setProp (py_account_type (pyUpper u))
          (py_account_name (pyUpper u) (some dnode.name)) (ps "owned") true)
        [⟨Channel.debug, ownedSetQueryMsg (py_account_type (pyUpper u))
            (py_account_name (pyUpper u) (some dnode.name))⟩,
          ⟨Channel.highlight, ownedHighlightMsg c.name⟩]
        []) ∧
    (w.graph.filter (domainMatches (derive_dn (pyUpper d))) = [] →
      w.graph.filter (nodeMatchesStarts (py_account_type (pyUpper u))
        (py_account_name (pyUpper u) none)) = [c] →
      c.get (ps "owned") ≠ some true →
      UpdatedThenAlreadySet (add_user_bh (.single u) d cfg none) w
        [Query.domainCheck (derive_dn (pyUpper d)),
          Query.matchStarts (py_account_type (pyUpper u)) (py_account_name (pyUpper u) none)]
        [Query.domainCheck (derive_dn (pyUpper d)),
          Query.matchStarts (py_account_type (pyUpper u)) (py_account_name (pyUpper u) none)]
        (Query.setProp (py_account_type (pyUpper u)) c.name (ps "owned") true)
        [⟨Channel.debug, domainFallbackMsg (pyUpper d)⟩,
          ⟨Channel.debug, ownedSetQueryMsg (py_account_type (pyUpper u)) c.name⟩,
          ⟨Channel.highlight, ownedHighlightMsg c.name⟩]
        [⟨Channel.debug, domainFallbackMsg (pyUpper d)⟩]) := by
  refine ⟨?_, ?_, ?_, ?_⟩
  · intro dnode ds hdom hfilter hval
    exact mark_webclient_twice_domain w cfg u d c dnode ds hen hu hdom hfilter hval
  · intro hdom hfilter hval
    exact mark_webclient_twice_nodomain w cfg u d c hen hu hdom hfilter hval
  · intro dnode ds hdom hfilter hval
    exact add_owned_twice_domain w cfg u d c dnode ds hen hu hdom hfilter hval
  · intro hdom hfilter hval
    exact add_owned_twice_nodomain w cfg u d c hen hu hdom hfilter hval

/-- Concrete BloodHound domain node for witnesses. -/
def c1DomainNode : Node := ⟨ps "Domain", ps "CORP.LOCAL", ps "DC=CORP,DC=LOCAL", []⟩

/-- Concrete computer node (no `webclientrunning` property stored yet). -/
def c1Computer : Node := ⟨ps "Computer", ps "WIN10.CORP.LOCAL", ps "CN=WIN10,DC=CORP,DC=LOCAL", []⟩

/-- Concrete enabled configuration for witnesses. -/
def c1Cfg : BHConfig := ⟨ps "True", ps "127.0.0.1", ps "7687", ps "neo4j", ps "neo4jpw"⟩

/-- Concrete world: one domain, one computer, empty trace. -/
def c1World : World := ⟨[c1DomainNode, c1Computer], [], [], 0, 0⟩

/-- Witness for C1 at a concrete input (lower-case `win10$` against the
`CORP.LOCAL` graph above, resolved through the domain-qualified exact path). -/
theorem claim_C1_witness :
    c1Cfg.bh_enabled ≠ ps "False" ∧
    pyUpper (ps "win10$") ≠ [] ∧
    c1World.graph.filter (domainMatches (derive_dn (pyUpper (ps "corp.local")))) =
      c1DomainNode :: [] ∧
    c1World.graph.filter (nodeMatchesExact (py_account_type (pyUpper (ps "win10$")))
      (py_account_name (pyUpper (ps "win10$")) (some c1DomainNode.name))) = [c1Computer] ∧
    c1Computer.get (ps "webclientrunning") ≠ some true ∧
    UpdatedThenAlreadySet
      (mark_web_client_enabled (.single (ps "win10$")) (ps "corp.local") c1Cfg none) c1World
      [Query.domainCheck (derive_dn (pyUpper (ps "corp.local"))),
        Query.matchExact (py_account_type (pyUpper (ps "win10$")))
          (py_account_name (pyUpper (ps "win10$")) (some c1DomainNode.name))]
      [Query.domainCheck (derive_dn (pyUpper (ps "corp.local"))),
        Query.matchExact (py_account_type (pyUpper (ps "win10$")))
          (py_account_name (pyUpper (ps "win10$")) (some c1DomainNode.name))]
      (Query.setProp (py_account_type (pyUpper (ps "win10$")))
        (py_account_name (pyUpper (ps "win10$")) (some c1DomainNode.name))
        (ps "webclientrunning") true)
      [⟨Channel.debug, webclientSetQueryMsg (py_account_type (pyUpper (ps "win10$")))
          (py_account_name (pyUpper (ps "win10$")) (some c1DomainNode.name))⟩,
        ⟨Channel.highlight, webclientHighlightMsg c1Computer.name⟩]
      [] :=
  ⟨by decide, by decide, by decide, by decide, by decide,
    (claim_C1_mark_operations_idempotent c1World c1Cfg (ps "win10$") (ps "corp.local")
      c1Computer (by decide) (by decide)).1 c1DomainNode [] (by decide) (by decide)
      (by decide)⟩

/-- Claim C7: with the BloodHound integration disabled in configuration
(`bh_enabled = "False"`), every public operation — the two source operations
and the three spec-modelled mark-operations built on `run_mark_operation` —
returns the world unchanged: no connection opened or closed, no query
issued, no log entry emitted. -/
theorem claim_C7_disabled_noop (input : BHInput) (d : PyStr) (cfg : BHConfig)
    (fault : Option DBErr) (w : World) (pairs : List (PyStr × Bool))
    (hdis : cfg.bh_enabled = ps "False") :
    mark_web_client_enabled input d cfg fault w = w ∧
    add_user_bh input d cfg fault w = w ∧
    run_mark_operation pairs input d cfg fault w = w := by
  refine ⟨?_, ?_, ?_⟩
  · unfold mark_web_client_enabled
    rw [if_neg (by simp [hdis])]
  · unfold add_user_bh
    rw [if_neg (by simp [hdis])]
  · unfold run_mark_operation
    rw [if_neg (by simp [hdis])]

/-- Witness for C7: a disabled configuration at a concrete world. -/
theorem claim_C7_witness :
    (BHConfig.mk (ps "False") (ps "127.0.0.1") (ps "7687") (ps "neo4j") (ps "pw")).bh_enabled =
      ps "False" ∧
    mark_web_client_enabled (.single (ps "alice")) (ps "corp.local")
      ⟨ps "False", ps "127.0.0.1", ps "7687", ps "neo4j", ps "pw"⟩ none c1World = c1World ∧
    add_user_bh (.single (ps "alice")) (ps "corp.local")
      ⟨ps "False", ps "127.0.0.1", ps "7687", ps "neo4j", ps "pw"⟩ none c1World = c1World ∧
    run_mark_operation [(ps "smbsigning", false)] (.single (ps "alice")) (ps "corp.local")
      ⟨ps "False", ps "127.0.0.1", ps "7687", ps "neo4j", ps "pw"⟩ none c1World = c1World :=
  ⟨rfl,
    (claim_C7_disabled_noop (.single (ps "alice")) (ps "corp.local")
      ⟨ps "False", ps "127.0.0.1", ps "7687", ps "neo4j", ps "pw"⟩ none c1World
      [(ps "smbsigning", false)] rfl).1,
    (claim_C7_disabled_noop (.single (ps "alice")) (ps "corp.local")
      ⟨ps "False", ps "127.0.0.1", ps "7687", ps "neo4j", ps "pw"⟩ none c1World
      [(ps "smbsigning", false)] rfl).2.1,
    (claim_C7_disabled_noop (.single (ps "alice")) (ps "corp.local")
      ⟨ps "False", ps "127.0.0.1", ps "7687", ps "neo4j", ps "pw"⟩ none c1World
      [(ps "smbsigning", false)] rfl).2.2⟩

/-- Claim C5: with the feature enabled, on every outcome branch — success,
resolution failure, authentication failure, connectivity failure, or any
other datastore error — the two public operations return an ordinary
`World` (the embedding gives them total type `World → World` because the
source's `except` arms catch every exception the body can raise), the
driver connection opened for the call is closed exactly once before
returning, and every injected driver-level failure is reported only as a
single `fail` entry in the logging sink. -/
theorem claim_C5_no_fault_connection_closed (input : BHInput) (d : PyStr)
    (cfg : BHConfig) (fault : Option DBErr) (w : World)
    (hen : cfg.bh_enabled ≠ ps "False") :
    ((mark_web_client_enabled input d cfg fault w).opened = w.opened + 1 ∧
      (mark_web_client_enabled input d cfg fault w).closed = w.closed + 1 ∧
      ∀ e, fault = some e →
        (mark_web_client_enabled input d cfg fault w).log =
          w.log ++ [⟨Channel.fail,
            failMessageFor cfg (_initiate_bloodhound_connection cfg) (driverExc e)⟩] ∧
        (mark_web_client_enabled input d cfg fault w).graph = w.graph) ∧
    ((add_user_bh input d cfg fault w).opened = w.opened + 1 ∧
      (add_user_bh input d cfg fault w).closed = w.closed + 1 ∧
      ∀ e, fault = some e →
        (add_user_bh input d cfg fault w).log =
          w.log ++ [⟨Channel.fail,
            failMessageFor cfg (_initiate_bloodhound_connection cfg) (driverExc e)⟩] ∧
        (add_user_bh input d cfg fault w).graph = w.graph) := by
  constructor
  · unfold mark_web_client_enabled
    rw [if_pos hen]
    cases input with
    | single str =>
      rcases fault with _ | e
      · rcases hb : process_list_webclient [⟨pyUpper str, pyUpper d⟩]
            ⟨w.graph, w.queries, w.log⟩ with ⟨e', ts⟩ | ts <;> simp [hb]
      · simp
    | batch l =>
      rcases fault with _ | e
      · rcases hb : process_list_webclient l ⟨w.graph, w.queries, w.log⟩
            with ⟨e', ts⟩ | ts <;> simp [hb]
      · simp
  · unfold add_user_bh
    rw [if_pos hen]
    cases input with
    | single str =>
      rcases fault with _ | e
      · rcases hb : process_list_add [⟨pyUpper str, pyUpper d⟩]
            ⟨w.graph, w.queries, w.log⟩ with ⟨e', ts⟩ | ts <;> simp [hb]
      · simp
    | batch l =>
      rcases fault with _ | e
      · rcases hb : process_list_add l ⟨w.graph, w.queries, w.log⟩
            with ⟨e', ts⟩ | ts <;> simp [hb]
      · simp

/-- Witness for C5: a connectivity failure injected at a concrete call still
yields `opened = closed = 1` and a single `fail` log entry. -/
theorem claim_C5_witness :
    c1Cfg.bh_enabled ≠ ps "False" ∧
    ((mark_web_client_enabled (.single (ps "alice")) (ps "corp.local") c1Cfg
        (some .serviceUnavailable) c1World).opened = c1World.opened + 1 ∧
      (mark_web_client_enabled (.single (ps "alice")) (ps "corp.local") c1Cfg
        (some .serviceUnavailable) c1World).closed = c1World.closed + 1 ∧
      ∀ e, (some DBErr.serviceUnavailable : Option DBErr) = some e →
        (mark_web_client_enabled (.single (ps "alice")) (ps "corp.local") c1Cfg
          (some .serviceUnavailable) c1World).log =
          c1World.log ++ [⟨Channel.fail,
            failMessageFor c1Cfg (_initiate_bloodhound_connection c1Cfg) (driverExc e)⟩] ∧
        (mark_web_client_enabled (.single (ps "alice")) (ps "corp.local") c1Cfg
          (some .serviceUnavailable) c1World).graph = c1World.graph) ∧
    ((add_user_bh (.single (ps "alice")) (ps "corp.local") c1Cfg
        (some .serviceUnavailable) c1World).opened = c1World.opened + 1 ∧
      (add_user_bh (.single (ps "alice")) (ps "corp.local") c1Cfg
        (some .serviceUnavailable) c1World).closed = c1World.closed + 1 ∧
      ∀ e, (some DBErr.serviceUnavailable : Option DBErr) = some e →
        (add_user_bh (.single (ps "alice")) (ps "corp.local") c1Cfg
          (some .serviceUnavailable) c1World).log =
          c1World.log ++ [⟨Channel.fail,
            failMessageFor c1Cfg (_initiate_bloodhound_connection c1Cfg) (driverExc e)⟩] ∧
        (add_user_bh (.single (ps "alice")) (ps "corp.local") c1Cfg
          (some .serviceUnavailable) c1World).graph = c1World.graph) :=
  ⟨by decide,
    (claim_C5_no_fault_connection_closed (.single (ps "alice")) (ps "corp.local") c1Cfg
      (some .serviceUnavailable) c1World (by decide)).1,
    (claim_C5_no_fault_connection_closed (.single (ps "alice")) (ps "corp.local") c1Cfg
      (some .serviceUnavailable) c1World (by decide)).2⟩

/-- Counterexample to C3 as stated: classification is not total.  On the
empty identifier — which does not end in `$`, so the claim's rule demands
`UserPrincipal` with the bare identifier as canonical name —
`_parse_user_or_machine_account` instead fails with `IndexError`
(`username[-1]` on an empty string). -/
theorem claim_C3_counterexample :
    _parse_user_or_machine_account ⟨ps "", ps "CORP.LOCAL"⟩ none = .error .indexError ∧
    _parse_user_or_machine_account ⟨ps "", ps "CORP.LOCAL"⟩ none ≠
      .ok (ps "", ps "User") := by
  have h1 : _parse_user_or_machine_account ⟨ps "", ps "CORP.LOCAL"⟩ none =
      .error .indexError := rfl
  refine ⟨h1, ?_⟩
  rw [h1]
  simp

/-- Claim C3 (amended: restricted to non-empty identifiers, which is what the
empty-identifier counterexample forces): classification is a deterministic
total function; an identifier whose last character is the machine marker `$`
is classified `Computer` with the marker stripped and canonical name
`hostname.domain` when a domain is supplied, else the bare hostname; any
other identifier is classified `User` with canonical name `identifier@domain`
when a domain is supplied, else the bare identifier. -/
theorem claim_C3_classification_total (u : UserInfo) (dom : Option PyStr)
    (hu : u.username ≠ []) :
    (u.username.getLast? = some '$' →
      _parse_user_or_machine_account u dom =
        .ok ((match dom with
              | some dd => u.username.dropLast ++ [ '.' ] ++ dd
              | none => u.username.dropLast), ps "Computer")) ∧
    (u.username.getLast? ≠ some '$' →
      _parse_user_or_machine_account u dom =
        .ok ((match dom with
              | some dd => u.username ++ [ '@' ] ++ dd
              | none => u.username), ps "User")) := by
  rw [parse_ok u dom hu]
  unfold py_account_name py_account_type
  constructor
  · intro h
    rw [if_pos h, if_pos h]
  · intro h
    rw [if_neg h, if_neg h]

/-- Witness for the amended C3, at a machine account with a known domain and
at a user account without one. -/
theorem claim_C3_witness :
    (ps "WIN10$" : PyStr) ≠ [] ∧
    ((ps "WIN10$" : PyStr).getLast? = some '$' →
      _parse_user_or_machine_account ⟨ps "WIN10$", ps "CORP.LOCAL"⟩ (some (ps "CORP.LOCAL")) =
        .ok (ps "WIN10" ++ [ '.' ] ++ ps "CORP.LOCAL", ps "Computer")) ∧
    (ps "alice" : PyStr) ≠ [] ∧
    ((ps "alice" : PyStr).getLast? ≠ some '$' →
      _parse_user_or_machine_account ⟨ps "alice", ps ""⟩ none =
        .ok (ps "alice", ps "User")) :=
  ⟨by decide,
    fun h => by
      have := (claim_C3_classification_total ⟨ps "WIN10$", ps "CORP.LOCAL"⟩
        (some (ps "CORP.LOCAL")) (by decide)).1 h
      simpa using this,
    by decide,
    fun h => (claim_C3_classification_total ⟨ps "alice", ps ""⟩ none (by decide)).2 h⟩

/-- Counterexample to C6 as stated: for batch input the records are passed
through unchanged, so lower-case identifiers/domains produce different
queries than their upper-cased forms — case of caller input does affect
matching in batch mode. -/
theorem claim_C6_counterexample :
    (mark_web_client_enabled (.batch [⟨ps "alice", ps "d"⟩]) (ps "") c1Cfg none
        ⟨[], [], [], 0, 0⟩).queries ≠
      (mark_web_client_enabled (.batch [⟨pyUpper (ps "alice"), pyUpper (ps "d")⟩]) (ps "")
        c1Cfg none ⟨[], [], [], 0, 0⟩).queries := by
  decide

/-- Claim C6 (amended: restricted to single-string input, which is what the
batch counterexample forces): for a single identifier-plus-domain string
pair the Normalizer upper-cases both values before matching, so the queries
issued are identical to those issued for the upper-cased input; batch
records are passed through unchanged (in particular the `domain` argument is
ignored for batches), so batch-mode case handling is the caller's
responsibility. -/
theorem claim_C6_single_input_case_insensitive (s d : PyStr) (cfg : BHConfig)
    (fault : Option DBErr) (w : World) :
    (mark_web_client_enabled (.single s) d cfg fault w).queries =
      (mark_web_client_enabled (.single (pyUpper s)) (pyUpper d) cfg fault w).queries ∧
    (add_user_bh (.single s) d cfg fault w).queries =
      (add_user_bh (.single (pyUpper s)) (pyUpper d) cfg fault w).queries ∧
    (∀ l, mark_web_client_enabled (.batch l) d cfg fault w =
      mark_web_client_enabled (.batch l) (pyUpper d) cfg fault w) ∧
    (∀ l, add_user_bh (.batch l) d cfg fault w =
      add_user_bh (.batch l) (pyUpper d) cfg fault w) := by
  have h1 : mark_web_client_enabled (.single s) d cfg fault w =
      mark_web_client_enabled (.single (pyUpper s)) (pyUpper d) cfg fault w := by
    show mark_web_client_enabled (.batch [⟨pyUpper s, pyUpper d⟩]) d cfg fault w =
      mark_web_client_enabled (.batch [⟨pyUpper (pyUpper s), pyUpper (pyUpper d)⟩])
        (pyUpper d) cfg fault w
    rw [pyUpper_idem, pyUpper_idem]
    rfl
  have h2 : add_user_bh (.single s) d cfg fault w =
      add_user_bh (.single (pyUpper s)) (pyUpper d) cfg fault w := by
    show add_user_bh (.batch [⟨pyUpper s, pyUpper d⟩]) d cfg fault w =
      add_user_bh (.batch [⟨pyUpper (pyUpper s), pyUpper (pyUpper d)⟩])
        (pyUpper d) cfg fault w
    rw [pyUpper_idem, pyUpper_idem]
    rfl
  exact ⟨by rw [h1], by rw [h2], fun l => rfl, fun l => rfl⟩

/-- Is this query a property write? -/
def isWriteQuery : Query → Bool
  | .setProp _ _ _ _ => true
  | _ => false

/-- First of two computers that prefix-match `WEB01`. -/
def c2CompA : Node := ⟨ps "Computer", ps "WEB01A.CORP.LOCAL", ps "CN=WEB01A", []⟩

/-- Second of two computers that prefix-match `WEB01`. -/
def c2CompB : Node := ⟨ps "Computer", ps "WEB01B.CORP.LOCAL", ps "CN=WEB01B", []⟩

/-- World with an ambiguous prefix match and no domain node. -/
def c2World : World := ⟨[c2CompA, c2CompB], [], [], 0, 0⟩

/-- Claim C2, code bug: on the domainless path with two or more matches,
`_adjust_webclient_property_without_domain` is meant to report the
`Multiple accounts found … specify the FQDN` failure like its sibling
`_add_without_domain`, but line 151 subscripts the parsed name (a `str`)
with `'username'`, raising `TypeError` while building the message.  So
`mark_web_client_enabled` logs the generic unexpected-error failure instead
of the ambiguity instruction (and aborts the batch), although it still
performs zero writes; `add_user_bh` on the same input behaves as the claim
states. -/
theorem claim_C2_ambiguous_webclient_typeerror :
    mark_web_client_enabled (.single (ps "web01$")) (ps "corp.local") c1Cfg none c2World =
      ⟨[c2CompA, c2CompB],
        [Query.domainCheck (ps "DC=CORP,DC=LOCAL"),
          Query.matchStarts (ps "Computer") (ps "WEB01")],
        [⟨Channel.debug, domainFallbackMsg (ps "CORP.LOCAL")⟩,
          ⟨Channel.fail, ps "Unexpected error with Neo4J: string indices must be integers"⟩],
        1, 1⟩ ∧
    (mark_web_client_enabled (.single (ps "web01$")) (ps "corp.local") c1Cfg none
      c2World).queries.filter isWriteQuery = [] ∧
    (⟨Channel.fail, multipleAccountsMsg (ps "WEB01$")⟩ : LogEntry) ∉
      (mark_web_client_enabled (.single (ps "web01$")) (ps "corp.local") c1Cfg none
        c2World).log ∧
    add_user_bh (.single (ps "web01$")) (ps "corp.local") c1Cfg none c2World =
      ⟨[c2CompA, c2CompB],
        [Query.domainCheck (ps "DC=CORP,DC=LOCAL"),
          Query.matchStarts (ps "Computer") (ps "WEB01")],
        [⟨Channel.debug, domainFallbackMsg (ps "CORP.LOCAL")⟩,
          ⟨Channel.fail, multipleAccountsMsg (ps "WEB01$")⟩],
        1, 1⟩ ∧
    (add_user_bh (.single (ps "web01$")) (ps "corp.local") c1Cfg none
      c2World).queries.filter isWriteQuery = [] := by
  refine ⟨by decide, by decide, by decide, by decide, by decide⟩

/-! ### Query-trace lemmas: which queries each reconcile body issues -/

theorem adjust_wd_resQueries (i : UserInfo) (d : PyStr) (s : TxState)
    (hu : i.username ≠ []) :
    ∃ restq, resQueries (_adjust_webclient_property_with_domain i d s) =
      s.queries ++ [Query.matchExact (py_account_type i.username)
        (py_account_name i.username (some d))] ++ restq ∧
      ∀ q ∈ restq, ∃ nm, q = Query.setProp (py_account_type i.username) nm
        (ps "webclientrunning") true := by
  unfold _adjust_webclient_property_with_domain
  rw [parse_ok _ _ hu]
  rcases hf : s.graph.filter (nodeMatchesExact (py_account_type i.username)
      (py_account_name i.username (some d))) with _ | ⟨c, rest⟩
  · exact ⟨[], by simp [run_match_exact, hf, logFail, resQueries], by simp⟩
  · rcases hg : c.get (ps "webclientrunning") with _ | b
    · refine ⟨[Query.setProp (py_account_type i.username)
        (py_account_name i.username (some d)) (ps "webclientrunning") true], ?_, ?_⟩
      · simp [run_match_exact, hf, hg, logDebug, run_set_prop, logHighlight, resQueries]
      · intro q hq
        simp only [List.mem_singleton] at hq
        exact ⟨_, hq⟩
    · cases b
      · refine ⟨[Query.setProp (py_account_type i.username)
          (py_account_name i.username (some d)) (ps "webclientrunning") true], ?_, ?_⟩
        · simp [run_match_exact, hf, hg, logDebug, run_set_prop, logHighlight, resQueries]
        · intro q hq
          simp only [List.mem_singleton] at hq
          exact ⟨_, hq⟩
      · exact ⟨[], by simp [run_match_exact, hf, hg, resQueries], by simp⟩

theorem adjust_wod_resQueries (i : UserInfo) (s : TxState)
    (hu : i.username ≠ []) :
    ∃ restq, resQueries (_adjust_webclient_property_without_domain i s) =
      s.queries ++ [Query.matchStarts (py_account_type i.username)
        (py_account_name i.username none)] ++ restq ∧
      ∀ q ∈ restq, ∃ nm, q = Query.setProp (py_account_type i.username) nm
        (ps "webclientrunning") true := by
  unfold _adjust_webclient_property_without_domain
  rw [parse_ok _ _ hu]
  rcases hf : s.graph.filter (nodeMatchesStarts (py_account_type i.username)
      (py_account_name i.username none)) with _ | ⟨c, rest⟩
  · exact ⟨[], by simp [run_match_starts, hf, logFail, resQueries], by simp⟩
  · rcases rest with _ | ⟨c', rest'⟩
    · rcases hg : c.get (ps "webclientrunning") with _ | b
      · refine ⟨[Query.setProp (py_account_type i.username) c.name
          (ps "webclientrunning") true], ?_, ?_⟩
        · rcases hnames : (s.graph.filter (nodeMatchesExact (py_account_type i.username)
              c.name)).map Node.name with _ | ⟨nm', tl⟩ <;>
            simp [run_match_starts, hf, hg, logDebug, run_set_prop, hnames, logHighlight,
              resQueries]
        · intro q hq
          simp only [List.mem_singleton] at hq
          exact ⟨_, hq⟩
      · cases b
        · refine ⟨[Query.setProp (py_account_type i.username) c.name
            (ps "webclientrunning") true], ?_, ?_⟩
          · rcases hnames : (s.graph.filter (nodeMatchesExact (py_account_type i.username)
                c.name)).map Node.name with _ | ⟨nm', tl⟩ <;>
              simp [run_match_starts, hf, hg, logDebug, run_set_prop, hnames, logHighlight,
                resQueries]
          · intro q hq
            simp only [List.mem_singleton] at hq
            exact ⟨_, hq⟩
        · exact ⟨[], by simp [run_match_starts, hf, hg, resQueries], by simp⟩
    · exact ⟨[], by simp [run_match_starts, hf, resQueries], by simp⟩

theorem add_wd_resQueries (i : UserInfo) (d : PyStr) (s : TxState)
    (hu : i.username ≠ []) :
    ∃ restq, resQueries (_add_with_domain i d s) =
      s.queries ++ [Query.matchExact (py_account_type i.username)
        (py_account_name i.username (some d))] ++ restq ∧
      ∀ q ∈ restq, ∃ nm, q = Query.setProp (py_account_type i.username) nm
        (ps "owned") true := by
  unfold _add_with_domain
  rw [parse_ok _ _ hu]
  rcases hf : s.graph.filter (nodeMatchesExact (py_account_type i.username)
      (py_account_name i.username (some d))) with _ | ⟨c, rest⟩
  · exact ⟨[], by simp [run_match_exact, hf, logFail, resQueries], by simp⟩
  · rcases hg : c.get (ps "owned") with _ | b
    · refine ⟨[Query.setProp (py_account_type i.username)
        (py_account_name i.username (some d)) (ps "owned") true], ?_, ?_⟩
      · simp [run_match_exact, hf, hg, logDebug, run_set_prop, logHighlight, resQueries]
      · intro q hq
        simp only [List.mem_singleton] at hq
        exact ⟨_, hq⟩
    · cases b
      · refine ⟨[Query.setProp (py_account_type i.username)
          (py_account_name i.username (some d)) (ps "owned") true], ?_, ?_⟩
        · simp [run_match_exact, hf, hg, logDebug, run_set_prop, logHighlight, resQueries]
        · intro q hq
          simp only [List.mem_singleton] at hq
          exact ⟨_, hq⟩
      · exact ⟨[], by simp [run_match_exact, hf, hg, resQueries], by simp⟩

theorem add_wod_resQueries (i : UserInfo) (s : TxState)
    (hu : i.username ≠ []) :
    ∃ restq, resQueries (_add_without_domain i s) =
      s.queries ++ [Query.matchStarts (py_account_type i.username)
        (py_account_name i.username none)] ++ restq ∧
      ∀ q ∈ restq, ∃ nm, q = Query.setProp (py_account_type i.username) nm
        (ps "owned") true := by
  unfold _add_without_domain
  rw [parse_ok _ _ hu]
  rcases hf : s.graph.filter (nodeMatchesStarts (py_account_type i.username)
      (py_account_name i.username none)) with _ | ⟨c, rest⟩
  · exact ⟨[], by simp [run_match_starts, hf, logFail, resQueries], by simp⟩
  · rcases rest with _ | ⟨c', rest'⟩
    · rcases hg : c.get (ps "owned") with _ | b
      · refine ⟨[Query.setProp (py_account_type i.username) c.name
          (ps "owned") true], ?_, ?_⟩
        · rcases hnames : (s.graph.filter (nodeMatchesExact (py_account_type i.username)
              c.name)).map Node.name with _ | ⟨nm', tl⟩ <;>
            simp [run_match_starts, hf, hg, logDebug, run_set_prop, hnames, logHighlight,
              resQueries]
        · intro q hq
          simp only [List.mem_singleton] at hq
          exact ⟨_, hq⟩
      · cases b
        · refine ⟨[Query.setProp (py_account_type i.username) c.name
            (ps "owned") true], ?_, ?_⟩
          · rcases hnames : (s.graph.filter (nodeMatchesExact (py_account_type i.username)
                c.name)).map Node.name with _ | ⟨nm', tl⟩ <;>
              simp [run_match_starts, hf, hg, logDebug, run_set_prop, hnames, logHighlight,
                resQueries]
          · intro q hq
            simp only [List.mem_singleton] at hq
            exact ⟨_, hq⟩
        · exact ⟨[], by simp [run_match_starts, hf, hg, resQueries], by simp⟩
    · exact ⟨[], by simp [run_match_starts, hf, logFail, resQueries], by simp⟩

/-- Claim C4: for every record (with the non-empty identifier classification
needs), if the record's domain is found by the DomainRecord query, both
operations resolve it with an exact match on the domain-qualified canonical
name — qualified with the name of the first domain node returned — under the
inferred principal-type label; if the domain is not found, both resolve it
with a name-prefix match on the bare canonical name under the same label. -/
theorem claim_C4_domain_fallback_strategy (i : UserInfo) (s : TxState)
    (hu : i.username ≠ []) :
    (∀ dnode ds,
      s.graph.filter (domainMatches (derive_dn i.domain)) = dnode :: ds →
      (∃ restq, resQueries (process_machine_webclient i s) =
        s.queries ++ [Query.domainCheck (derive_dn i.domain),
          Query.matchExact (py_account_type i.username)
            (py_account_name i.username (some dnode.name))] ++ restq) ∧
      (∃ restq, resQueries (process_user_add i s) =
        s.queries ++ [Query.domainCheck (derive_dn i.domain),
          Query.matchExact (py_account_type i.username)
            (py_account_name i.username (some dnode.name))] ++ restq)) ∧
    (s.graph.filter (domainMatches (derive_dn i.domain)) = [] →
      (∃ restq, resQueries (process_machine_webclient i s) =
        s.queries ++ [Query.domainCheck (derive_dn i.domain),
          Query.matchStarts (py_account_type i.username)
            (py_account_name i.username none)] ++ restq) ∧
      (∃ restq, resQueries (process_user_add i s) =
        s.queries ++ [Query.domainCheck (derive_dn i.domain),
          Query.matchStarts (py_account_type i.username)
            (py_account_name i.username none)] ++ restq)) := by
  constructor
  · intro dnode ds hdom
    constructor
    · rw [process_machine_webclient_found i s dnode ds hdom]
      obtain ⟨restq, heq, -⟩ := adjust_wd_resQueries i dnode.name
        { s with queries := s.queries ++ [Query.domainCheck (derive_dn i.domain)] } hu
      exact ⟨restq, by rw [heq]; simp⟩
    · rw [process_user_add_found i s dnode ds hdom]
      obtain ⟨restq, heq, -⟩ := add_wd_resQueries i dnode.name
        { s with queries := s.queries ++ [Query.domainCheck (derive_dn i.domain)] } hu
      exact ⟨restq, by rw [heq]; simp⟩
  · intro hdom
    constructor
    · rw [process_machine_webclient_nodomain i s hdom]
      obtain ⟨restq, heq, -⟩ := adjust_wod_resQueries i
        { s with
            queries := s.queries ++ [Query.domainCheck (derive_dn i.domain)],
            log := s.log ++ [⟨Channel.debug, domainFallbackMsg i.domain⟩] } hu
      exact ⟨restq, by rw [heq]; simp⟩
    · rw [process_user_add_nodomain i s hdom]
      obtain ⟨restq, heq, -⟩ := add_wod_resQueries i
        { s with
            queries := s.queries ++ [Query.domainCheck (derive_dn i.domain)],
            log := s.log ++ [⟨Channel.debug, domainFallbackMsg i.domain⟩] } hu
      exact ⟨restq, by rw [heq]; simp⟩

/-- Witness for C4: the known-domain side at the `CORP.LOCAL` graph and the
unknown-domain side at a graph with no domain node. -/
theorem claim_C4_witness :
    (ps "WIN10$" : PyStr) ≠ [] ∧
    (⟨[c1DomainNode, c1Computer], [], []⟩ : TxState).graph.filter
      (domainMatches (derive_dn (ps "CORP.LOCAL"))) = c1DomainNode :: [] ∧
    (∃ restq, resQueries (process_machine_webclient ⟨ps "WIN10$", ps "CORP.LOCAL"⟩
        ⟨[c1DomainNode, c1Computer], [], []⟩) =
      [] ++ [Query.domainCheck (derive_dn (ps "CORP.LOCAL")),
        Query.matchExact (py_account_type (ps "WIN10$"))
          (py_account_name (ps "WIN10$") (some c1DomainNode.name))] ++ restq) ∧
    (⟨[c2CompA, c2CompB], [], []⟩ : TxState).graph.filter
      (domainMatches (derive_dn (ps "CORP.LOCAL"))) = [] ∧
    (∃ restq, resQueries (process_user_add ⟨ps "WIN10$", ps "CORP.LOCAL"⟩
        ⟨[c2CompA, c2CompB], [], []⟩) =
      [] ++ [Query.domainCheck (derive_dn (ps "CORP.LOCAL")),
        Query.matchStarts (py_account_type (ps "WIN10$"))
          (py_account_name (ps "WIN10$") none)] ++ restq) :=
  ⟨by decide, by decide,
    ((claim_C4_domain_fallback_strategy ⟨ps "WIN10$", ps "CORP.LOCAL"⟩
      ⟨[c1DomainNode, c1Computer], [], []⟩ (by decide)).1 c1DomainNode [] (by decide)).1,
    by decide,
    ((claim_C4_domain_fallback_strategy ⟨ps "WIN10$", ps "CORP.LOCAL"⟩
      ⟨[c2CompA, c2CompB], [], []⟩ (by decide)).2 (by decide)).2⟩

/-- Claim C9: a record with an empty domain string derives the distinguished
name `DC=`, which prefix-matches the `distinguishedname` of every well-formed
DomainRecord; so whenever the graph has at least one domain node, the record
is resolved through the domain-qualified exact-match path, qualified with the
name of the first-returned domain node, and the domainless prefix-match
fallback is never used (beyond the resolution queries shown, the call issues
only property writes). -/
theorem claim_C9_empty_domain_uses_first_domain (i : UserInfo) (s : TxState)
    (hu : i.username ≠ []) (hd : i.domain = [])
    (hwf : ∀ n ∈ s.graph, n.label = ps "Domain" →
      (ps "DC=").isPrefixOf n.distinguishedname = true)
    (hex : ∃ n ∈ s.graph, n.label = ps "Domain") :
    derive_dn i.domain = ps "DC=" ∧
    ∃ dnode ds,
      s.graph.filter (domainMatches (ps "DC=")) = dnode :: ds ∧
      (∃ restq, resQueries (process_machine_webclient i s) =
        s.queries ++ [Query.domainCheck (ps "DC="),
          Query.matchExact (py_account_type i.username)
            (py_account_name i.username (some dnode.name))] ++ restq ∧
        ∀ q ∈ restq, isWriteQuery q = true) ∧
      (∃ restq, resQueries (process_user_add i s) =
        s.queries ++ [Query.domainCheck (ps "DC="),
          Query.matchExact (py_account_type i.username)
            (py_account_name i.username (some dnode.name))] ++ restq ∧
        ∀ q ∈ restq, isWriteQuery q = true) := by
  have hdn : derive_dn i.domain = ps "DC=" := by
    rw [hd]
    rfl
  refine ⟨hdn, ?_⟩
  rcases hf : s.graph.filter (domainMatches (ps "DC=")) with _ | ⟨dnode, ds⟩
  · exfalso
    obtain ⟨n, hn, hlab⟩ := hex
    have hno := List.filter_eq_nil_iff.mp hf n hn
    apply hno
    simp [domainMatches, hlab, hwf n hn hlab]
  · have hf' : s.graph.filter (domainMatches (derive_dn i.domain)) = dnode :: ds := by
      rw [hdn]
      exact hf
    refine ⟨dnode, ds, rfl, ?_, ?_⟩
    · rw [process_machine_webclient_found i s dnode ds hf']
      obtain ⟨restq, heq, hcontent⟩ := adjust_wd_resQueries i dnode.name
        { s with queries := s.queries ++ [Query.domainCheck (derive_dn i.domain)] } hu
      refine ⟨restq, ?_, ?_⟩
      · rw [heq]
        simp [hdn]
      · intro q hq
        obtain ⟨nm, rfl⟩ := hcontent q hq
        rfl
    · rw [process_user_add_found i s dnode ds hf']
      obtain ⟨restq, heq, hcontent⟩ := add_wd_resQueries i dnode.name
        { s with queries := s.queries ++ [Query.domainCheck (derive_dn i.domain)] } hu
      refine ⟨restq, ?_, ?_⟩
      · rw [heq]
        simp [hdn]
      · intro q hq
        obtain ⟨nm, rfl⟩ := hcontent q hq
        rfl

/-- Witness for C9 at the concrete `CORP.LOCAL` graph with an empty record
domain. -/
theorem claim_C9_witness :
    (ps "WIN10$" : PyStr) ≠ [] ∧
    (⟨ps "WIN10$", ps ""⟩ : UserInfo).domain = [] ∧
    (∀ n ∈ (⟨[c1DomainNode, c1Computer], [], []⟩ : TxState).graph,
      n.label = ps "Domain" → (ps "DC=").isPrefixOf n.distinguishedname = true) ∧
    (∃ n ∈ (⟨[c1DomainNode, c1Computer], [], []⟩ : TxState).graph,
      n.label = ps "Domain") ∧
    (derive_dn (⟨ps "WIN10$", ps ""⟩ : UserInfo).domain = ps "DC=" ∧
      ∃ dnode ds,
        (⟨[c1DomainNode, c1Computer], [], []⟩ : TxState).graph.filter
          (domainMatches (ps "DC=")) = dnode :: ds ∧
        (∃ restq, resQueries (process_machine_webclient ⟨ps "WIN10$", ps ""⟩
            ⟨[c1DomainNode, c1Computer], [], []⟩) =
          [] ++ [Query.domainCheck (ps "DC="),
            Query.matchExact (py_account_type (ps "WIN10$"))
              (py_account_name (ps "WIN10$") (some dnode.name))] ++ restq ∧
          ∀ q ∈ restq, isWriteQuery q = true) ∧
        (∃ restq, resQueries (process_user_add ⟨ps "WIN10$", ps ""⟩
            ⟨[c1DomainNode, c1Computer], [], []⟩) =
          [] ++ [Query.domainCheck (ps "DC="),
            Query.matchExact (py_account_type (ps "WIN10$"))
              (py_account_name (ps "WIN10$") (some dnode.name))] ++ restq ∧
          ∀ q ∈ restq, isWriteQuery q = true)) :=
  ⟨by decide, by decide, by decide, ⟨c1DomainNode, by decide, by decide⟩,
    claim_C9_empty_domain_uses_first_domain ⟨ps "WIN10$", ps ""⟩
      ⟨[c1DomainNode, c1Computer], [], []⟩ (by decide) (by decide) (by decide)
      ⟨c1DomainNode, by decide, by decide⟩⟩

/-- Claim C10: classification needs a non-empty identifier.  A record with
the empty identifier makes `_parse_user_or_machine_account` fail with
`IndexError` (`username[-1]`) after the domain query but before any match or
write is attempted; `mark_web_client_enabled` then reports it through the
generic unexpected-error channel (not the `NotFound` failure) with the graph
unchanged; and with a non-empty identifier this failure cannot happen. -/
theorem claim_C10_empty_identifier_unexpected_error (dd : PyStr) (dom : Option PyStr)
    (s : TxState) (d : PyStr) (cfg : BHConfig) (w : World) (u : UserInfo)
    (hen : cfg.bh_enabled ≠ ps "False") (hu : u.username ≠ []) :
    _parse_user_or_machine_account ⟨[], dd⟩ dom = .error .indexError ∧
    (∃ lg, process_machine_webclient ⟨[], dd⟩ s =
      .error (.indexError, ⟨s.graph, s.queries ++ [Query.domainCheck (derive_dn dd)], lg⟩) ∧
      (lg = s.log ∨ lg = s.log ++ [⟨Channel.debug, domainFallbackMsg dd⟩])) ∧
    (∃ lg, mark_web_client_enabled (.single (ps "")) d cfg none w =
      ⟨w.graph, w.queries ++ [Query.domainCheck (derive_dn (pyUpper d))],
        lg ++ [⟨Channel.fail, ps "Unexpected error with Neo4J: string index out of range"⟩],
        w.opened + 1, w.closed + 1⟩ ∧
      (lg = w.log ∨ lg = w.log ++ [⟨Channel.debug, domainFallbackMsg (pyUpper d)⟩])) ∧
    (∃ r, _parse_user_or_machine_account u dom = .ok r) := by
  have hparse : ∀ (dd' : PyStr) (dom' : Option PyStr),
      _parse_user_or_machine_account ⟨[], dd'⟩ dom' = .error .indexError := by
    intro dd' dom'
    rfl
  have hproc : ∀ (dd' : PyStr) (s' : TxState), ∃ lg, process_machine_webclient ⟨[], dd'⟩ s' =
      .error (.indexError,
        ⟨s'.graph, s'.queries ++ [Query.domainCheck (derive_dn dd')], lg⟩) ∧
      (lg = s'.log ∨ lg = s'.log ++ [⟨Channel.debug, domainFallbackMsg dd'⟩]) := by
    intro dd' s'
    unfold process_machine_webclient _does_domain_exist_in_bloodhound
    rcases hdq : s'.graph.filter (domainMatches (derive_dn dd')) with _ | ⟨d0, ds⟩
    · refine ⟨s'.log ++ [⟨Channel.debug, domainFallbackMsg dd'⟩], ?_, Or.inr rfl⟩
      simp [hdq, logDebug, _adjust_webclient_property_without_domain,
        _parse_user_or_machine_account]
    · refine ⟨s'.log, ?_, Or.inl rfl⟩
      simp [hdq, _adjust_webclient_property_with_domain, _parse_user_or_machine_account]
  refine ⟨hparse dd dom, hproc dd s, ?_, ?_⟩
  · obtain ⟨lg, hp, hlg⟩ := hproc (pyUpper d) ⟨w.graph, w.queries, w.log⟩
    have hmsg : failMessageFor cfg (_initiate_bloodhound_connection cfg) PyExc.indexError =
        ps "Unexpected error with Neo4J: string index out of range" := rfl
    refine ⟨lg, ?_, hlg⟩
    have := mark_single_error (ps "") d cfg w PyExc.indexError
      ⟨w.graph, w.queries ++ [Query.domainCheck (derive_dn (pyUpper d))], lg⟩ hen hp
    rw [this, hmsg]
  · rw [parse_ok u dom hu]
    exact ⟨_, rfl⟩

/-- Witness for C10 at concrete inputs. -/
theorem claim_C10_witness :
    c1Cfg.bh_enabled ≠ ps "False" ∧
    (ps "alice" : PyStr) ≠ [] ∧
    (_parse_user_or_machine_account ⟨[], ps "CORP.LOCAL"⟩ none = .error .indexError ∧
      (∃ lg, process_machine_webclient ⟨[], ps "CORP.LOCAL"⟩ ⟨[c2CompA, c2CompB], [], []⟩ =
        .error (.indexError, ⟨[c2CompA, c2CompB],
          [] ++ [Query.domainCheck (derive_dn (ps "CORP.LOCAL"))], lg⟩) ∧
        (lg = [] ∨ lg = [] ++ [⟨Channel.debug, domainFallbackMsg (ps "CORP.LOCAL")⟩])) ∧
      (∃ lg, mark_web_client_enabled (.single (ps "")) (ps "corp.local") c1Cfg none c2World =
        ⟨c2World.graph, c2World.queries ++ [Query.domainCheck (derive_dn (pyUpper (ps "corp.local")))],
          lg ++ [⟨Channel.fail, ps "Unexpected error with Neo4J: string index out of range"⟩],
          c2World.opened + 1, c2World.closed + 1⟩ ∧
        (lg = c2World.log ∨
          lg = c2World.log ++ [⟨Channel.debug, domainFallbackMsg (pyUpper (ps "corp.local"))⟩])) ∧
      (∃ r, _parse_user_or_machine_account ⟨ps "alice", ps "X"⟩ none = .ok r)) :=
  ⟨by decide, by decide,
    claim_C10_empty_identifier_unexpected_error (ps "CORP.LOCAL") none
      ⟨[c2CompA, c2CompB], [], []⟩ (ps "corp.local") c1Cfg c2World ⟨ps "alice", ps "X"⟩
      (by decide) (by decide)⟩

/-- `_parse_user_or_machine_account` on the empty identifier. -/
theorem parse_empty (i : UserInfo) (dom : Option PyStr) (hu : i.username = []) :
    _parse_user_or_machine_account i dom = .error .indexError := by
  unfold _parse_user_or_machine_account
  rw [if_pos hu]

theorem reconcile_record_resQueries (p₀ : PyStr) (v₀ : Bool) (i : UserInfo) (s : TxState)
    (hu : i.username ≠ []) :
    ∃ mq restq, resQueries (reconcile_record p₀ v₀ i s) =
      s.queries ++ [Query.domainCheck (derive_dn i.domain)] ++ [mq] ++ restq ∧
      isWriteQuery mq = false ∧
      ∀ q ∈ restq, ∃ L nm, q = Query.setProp L nm p₀ v₀ := by
  unfold reconcile_record _does_domain_exist_in_bloodhound
  rcases hdq : s.graph.filter (domainMatches (derive_dn i.domain)) with _ | ⟨d0, ds⟩
  · rcases hf : s.graph.filter (nodeMatchesStarts (py_account_type i.username)
        (py_account_name i.username none)) with _ | ⟨c, rest⟩
    · refine ⟨Query.matchStarts (py_account_type i.username)
        (py_account_name i.username none), [], ?_, rfl, by simp⟩
      simp [hdq, logDebug, parse_ok _ _ hu, run_match_starts, hf, logFail, resQueries]
    · rcases rest with _ | ⟨c', rest'⟩
      · rcases hg : (c.get p₀ == some v₀) with _ | _
        · refine ⟨Query.matchStarts (py_account_type i.username)
            (py_account_name i.username none),
            [Query.setProp (py_account_type i.username) c.name p₀ v₀], ?_, rfl, ?_⟩
          · rcases hnames : (s.graph.filter (nodeMatchesExact (py_account_type i.username)
                c.name)).map Node.name with _ | ⟨nm', tl⟩ <;>
              simp [hdq, logDebug, parse_ok _ _ hu, run_match_starts, hf, hg, run_set_prop, hnames,
                logHighlight, resQueries]
          · intro q hq
            simp only [List.mem_singleton] at hq
            exact ⟨_, _, hq⟩
        · refine ⟨Query.matchStarts (py_account_type i.username)
            (py_account_name i.username none), [], ?_, rfl, by simp⟩
          simp [hdq, logDebug, parse_ok _ _ hu, run_match_starts, hf, hg, resQueries]
      · refine ⟨Query.matchStarts (py_account_type i.username)
          (py_account_name i.username none), [], ?_, rfl, by simp⟩
        simp [hdq, logDebug, parse_ok _ _ hu, run_match_starts, hf, logFail, resQueries]
  · rcases hf : s.graph.filter (nodeMatchesExact (py_account_type i.username)
        (py_account_name i.username (some d0.name))) with _ | ⟨c, rest⟩
    · refine ⟨Query.matchExact (py_account_type i.username)
        (py_account_name i.username (some d0.name)), [], ?_, rfl, by simp⟩
      simp [hdq, parse_ok _ _ hu, run_match_exact, hf, logFail, resQueries]
    · rcases hg : (c.get p₀ == some v₀) with _ | _
      · refine ⟨Query.matchExact (py_account_type i.username)
          (py_account_name i.username (some d0.name)),
          [Query.setProp (py_account_type i.username)
            (py_account_name i.username (some d0.name)) p₀ v₀], ?_, rfl, ?_⟩
        · rcases hnames : (s.graph.filter (nodeMatchesExact (py_account_type i.username)
              (py_account_name i.username (some d0.name)))).map Node.name
            with _ | ⟨nm', tl⟩ <;>
            simp [hdq, parse_ok _ _ hu, run_match_exact, hf, hg, run_set_prop, hnames, logHighlight,
              resQueries]
        · intro q hq
          simp only [List.mem_singleton] at hq
          exact ⟨_, _, hq⟩
      · refine ⟨Query.matchExact (py_account_type i.username)
          (py_account_name i.username (some d0.name)), [], ?_, rfl, by simp⟩
        simp [hdq, parse_ok _ _ hu, run_match_exact, hf, hg, resQueries]

/-- `reconcile_record` on an empty identifier stops right after the domain
query. -/
theorem reconcile_record_empty (p₀ : PyStr) (v₀ : Bool) (i : UserInfo) (s : TxState)
    (hu : i.username = []) :
    resQueries (reconcile_record p₀ v₀ i s) =
      s.queries ++ [Query.domainCheck (derive_dn i.domain)] := by
  unfold reconcile_record _does_domain_exist_in_bloodhound
  rcases hdq : s.graph.filter (domainMatches (derive_dn i.domain)) with _ | ⟨d0, ds⟩ <;>
    simp [hdq, logDebug, parse_empty i _ hu, resQueries]

/-! ### Only the fixed property write of each operation is ever issued -/

theorem adjust_wd_setProp_mem (i : UserInfo) (d : PyStr) (s : TxState)
    {L nm p : PyStr} {vb : Bool}
    (h : Query.setProp L nm p vb ∈
      resQueries (_adjust_webclient_property_with_domain i d s)) :
    Query.setProp L nm p vb ∈ s.queries ∨ (p = ps "webclientrunning" ∧ vb = true) := by
  by_cases hu : i.username = []
  · left
    have he : _adjust_webclient_property_with_domain i d s = .error (.indexError, s) := by
      unfold _adjust_webclient_property_with_domain
      rw [parse_empty i (some d) hu]
    rw [he] at h
    exact h
  · obtain ⟨restq, heq, hcontent⟩ := adjust_wd_resQueries i d s hu
    rw [heq] at h
    simp only [List.mem_append] at h
    rcases h with (h | h) | h
    · exact Or.inl h
    · simp at h
    · obtain ⟨nm', hq⟩ := hcontent _ h
      rw [Query.setProp.injEq] at hq
      exact Or.inr ⟨hq.2.2.1, hq.2.2.2⟩

theorem adjust_wod_setProp_mem (i : UserInfo) (s : TxState)
    {L nm p : PyStr} {vb : Bool}
    (h : Query.setProp L nm p vb ∈
      resQueries (_adjust_webclient_property_without_domain i s)) :
    Query.setProp L nm p vb ∈ s.queries ∨ (p = ps "webclientrunning" ∧ vb = true) := by
  by_cases hu : i.username = []
  · left
    have he : _adjust_webclient_property_without_domain i s = .error (.indexError, s) := by
      unfold _adjust_webclient_property_without_domain
      rw [parse_empty i none hu]
    rw [he] at h
    exact h
  · obtain ⟨restq, heq, hcontent⟩ := adjust_wod_resQueries i s hu
    rw [heq] at h
    simp only [List.mem_append] at h
    rcases h with (h | h) | h
    · exact Or.inl h
    · simp at h
    · obtain ⟨nm', hq⟩ := hcontent _ h
      rw [Query.setProp.injEq] at hq
      exact Or.inr ⟨hq.2.2.1, hq.2.2.2⟩

theorem add_wd_setProp_mem (i : UserInfo) (d : PyStr) (s : TxState)
    {L nm p : PyStr} {vb : Bool}
    (h : Query.setProp L nm p vb ∈
      resQueries (_add_with_domain i d s)) :
    Query.setProp L nm p vb ∈ s.queries ∨ (p = ps "owned" ∧ vb = true) := by
  by_cases hu : i.username = []
  · left
    have he : _add_with_domain i d s = .error (.indexError, s) := by
      unfold _add_with_domain
      rw [parse_empty i (some d) hu]
    rw [he] at h
    exact h
  · obtain ⟨restq, heq, hcontent⟩ := add_wd_resQueries i d s hu
    rw [heq] at h
    simp only [List.mem_append] at h
    rcases h with (h | h) | h
    · exact Or.inl h
    · simp at h
    · obtain ⟨nm', hq⟩ := hcontent _ h
      rw [Query.setProp.injEq] at hq
      exact Or.inr ⟨hq.2.2.1, hq.2.2.2⟩

theorem add_wod_setProp_mem (i : UserInfo) (s : TxState)
    {L nm p : PyStr} {vb : Bool}
    (h : Query.setProp L nm p vb ∈
      resQueries (_add_without_domain i s)) :
    Query.setProp L nm p vb ∈ s.queries ∨ (p = ps "owned" ∧ vb = true) := by
  by_cases hu : i.username = []
  · left
    have he : _add_without_domain i s = .error (.indexError, s) := by
      unfold _add_without_domain
      rw [parse_empty i none hu]
    rw [he] at h
    exact h
  · obtain ⟨restq, heq, hcontent⟩ := add_wod_resQueries i s hu
    rw [heq] at h
    simp only [List.mem_append] at h
    rcases h with (h | h) | h
    · exact Or.inl h
    · simp at h
    · obtain ⟨nm', hq⟩ := hcontent _ h
      rw [Query.setProp.injEq] at hq
      exact Or.inr ⟨hq.2.2.1, hq.2.2.2⟩

theorem process_webclient_setProp_mem (i : UserInfo) (s : TxState)
    {L nm p : PyStr} {vb : Bool}
    (h : Query.setProp L nm p vb ∈ resQueries (process_machine_webclient i s)) :
    Query.setProp L nm p vb ∈ s.queries ∨ (p = ps "webclientrunning" ∧ vb = true) := by
  rcases hdq : s.graph.filter (domainMatches (derive_dn i.domain)) with _ | ⟨d0, ds⟩
  · rw [process_machine_webclient_nodomain i s hdq] at h
    rcases adjust_wod_setProp_mem _ _ h with h' | h'
    · simp only [List.mem_append] at h'
      rcases h' with h' | h'
      · exact Or.inl h'
      · simp at h'
    · exact Or.inr h'
  · rw [process_machine_webclient_found i s d0 ds hdq] at h
    rcases adjust_wd_setProp_mem _ _ _ h with h' | h'
    · simp only [List.mem_append] at h'
      rcases h' with h' | h'
      · exact Or.inl h'
      · simp at h'
    · exact Or.inr h'

theorem process_add_setProp_mem (i : UserInfo) (s : TxState)
    {L nm p : PyStr} {vb : Bool}
    (h : Query.setProp L nm p vb ∈ resQueries (process_user_add i s)) :
    Query.setProp L nm p vb ∈ s.queries ∨ (p = ps "owned" ∧ vb = true) := by
  rcases hdq : s.graph.filter (domainMatches (derive_dn i.domain)) with _ | ⟨d0, ds⟩
  · rw [process_user_add_nodomain i s hdq] at h
    rcases add_wod_setProp_mem _ _ h with h' | h'
    · simp only [List.mem_append] at h'
      rcases h' with h' | h'
      · exact Or.inl h'
      · simp at h'
    · exact Or.inr h'
  · rw [process_user_add_found i s d0 ds hdq] at h
    rcases add_wd_setProp_mem _ _ _ h with h' | h'
    · simp only [List.mem_append] at h'
      rcases h' with h' | h'
      · exact Or.inl h'
      · simp at h'
    · exact Or.inr h'

theorem process_pairs_record_setProp_mem (pairs : List (PyStr × Bool)) (i : UserInfo)
    (s : TxState) {L nm p : PyStr} {vb : Bool}
    (h : Query.setProp L nm p vb ∈ resQueries (process_record_pairs pairs i s)) :
    Query.setProp L nm p vb ∈ s.queries ∨ (p, vb) ∈ pairs := by
  induction pairs generalizing s with
  | nil =>
    exact Or.inl h
  | cons pv rest ih =>
    obtain ⟨p₀, v₀⟩ := pv
    have hrec : ∀ (s' : TxState), Query.setProp L nm p vb ∈
        resQueries (reconcile_record p₀ v₀ i s') →
        Query.setProp L nm p vb ∈ s'.queries ∨ (p, vb) ∈ (p₀, v₀) :: rest := by
      intro s' h'
      by_cases hu : i.username = []
      · rw [reconcile_record_empty p₀ v₀ i s' hu] at h'
        simp only [List.mem_append] at h'
        rcases h' with h' | h'
        · exact Or.inl h'
        · simp at h'
      · obtain ⟨mq, restq, heq, hmq, hcontent⟩ := reconcile_record_resQueries p₀ v₀ i s' hu
        rw [heq] at h'
        simp only [List.mem_append] at h'
        rcases h' with ((h' | h') | h') | h'
        · exact Or.inl h'
        · simp at h'
        · rw [List.mem_singleton] at h'
          rw [← h'] at hmq
          simp [isWriteQuery] at hmq
        · obtain ⟨L', nm', hq⟩ := hcontent _ h'
          rw [Query.setProp.injEq] at hq
          rw [hq.2.2.1, hq.2.2.2]
          simp
    rcases hr : reconcile_record p₀ v₀ i s with ⟨e, ts⟩ | s'
    · have hpl : process_record_pairs ((p₀, v₀) :: rest) i s = .error (e, ts) := by
        simp [process_record_pairs, hr]
      rw [hpl] at h
      have h' : Query.setProp L nm p vb ∈ resQueries (reconcile_record p₀ v₀ i s) := by
        rw [hr]
        exact h
      exact hrec s h'
    · have hpl : process_record_pairs ((p₀, v₀) :: rest) i s =
          process_record_pairs rest i s' := by
        simp [process_record_pairs, hr]
      rw [hpl] at h
      rcases ih s' h with h' | h'
      · have h'' : Query.setProp L nm p vb ∈ resQueries (reconcile_record p₀ v₀ i s) := by
          rw [hr]
          exact h'
        rcases hrec s h'' with h3 | h3
        · exact Or.inl h3
        · exact Or.inr h3
      · exact Or.inr (List.mem_cons_of_mem _ h')

theorem process_list_webclient_setProp_mem (l : List UserInfo) (s : TxState)
    {L nm p : PyStr} {vb : Bool}
    (h : Query.setProp L nm p vb ∈ resQueries (process_list_webclient l s)) :
    Query.setProp L nm p vb ∈ s.queries ∨ (p = ps "webclientrunning" ∧ vb = true) := by
  induction l generalizing s with
  | nil => exact Or.inl h
  | cons i rest ih =>
    rcases hr : process_machine_webclient i s with ⟨e, ts⟩ | s'
    · have hpl : process_list_webclient (i :: rest) s = .error (e, ts) := by
        simp [process_list_webclient, hr]
      rw [hpl] at h
      have h' : Query.setProp L nm p vb ∈ resQueries (process_machine_webclient i s) := by
        rw [hr]
        exact h
      exact process_webclient_setProp_mem i s h'
    · have hpl : process_list_webclient (i :: rest) s = process_list_webclient rest s' := by
        simp [process_list_webclient, hr]
      rw [hpl] at h
      rcases ih s' h with h' | h'
      · have h'' : Query.setProp L nm p vb ∈ resQueries (process_machine_webclient i s) := by
          rw [hr]
          exact h'
        exact process_webclient_setProp_mem i s h''
      · exact Or.inr h'

theorem process_list_add_setProp_mem (l : List UserInfo) (s : TxState)
    {L nm p : PyStr} {vb : Bool}
    (h : Query.setProp L nm p vb ∈ resQueries (process_list_add l s)) :
    Query.setProp L nm p vb ∈ s.queries ∨ (p = ps "owned" ∧ vb = true) := by
  induction l generalizing s with
  | nil => exact Or.inl h
  | cons i rest ih =>
    rcases hr : process_user_add i s with ⟨e, ts⟩ | s'
    · have hpl : process_list_add (i :: rest) s = .error (e, ts) := by
        simp [process_list_add, hr]
      rw [hpl] at h
      have h' : Query.setProp L nm p vb ∈ resQueries (process_user_add i s) := by
        rw [hr]
        exact h
      exact process_add_setProp_mem i s h'
    · have hpl : process_list_add (i :: rest) s = process_list_add rest s' := by
        simp [process_list_add, hr]
      rw [hpl] at h
      rcases ih s' h with h' | h'
      · have h'' : Query.setProp L nm p vb ∈ resQueries (process_user_add i s) := by
          rw [hr]
          exact h'
        exact process_add_setProp_mem i s h''
      · exact Or.inr h'

theorem process_list_pairs_setProp_mem (pairs : List (PyStr × Bool)) (l : List UserInfo)
    (s : TxState) {L nm p : PyStr} {vb : Bool}
    (h : Query.setProp L nm p vb ∈ resQueries (process_list_pairs pairs l s)) :
    Query.setProp L nm p vb ∈ s.queries ∨ (p, vb) ∈ pairs := by
  induction l generalizing s with
  | nil => exact Or.inl h
  | cons i rest ih =>
    rcases hr : process_record_pairs pairs i s with ⟨e, ts⟩ | s'
    · have hpl : process_list_pairs pairs (i :: rest) s = .error (e, ts) := by
        simp [process_list_pairs, hr]
      rw [hpl] at h
      have h' : Query.setProp L nm p vb ∈ resQueries (process_record_pairs pairs i s) := by
        rw [hr]
        exact h
      exact process_pairs_record_setProp_mem pairs i s h'
    · have hpl : process_list_pairs pairs (i :: rest) s = process_list_pairs pairs rest s' := by
        simp [process_list_pairs, hr]
      rw [hpl] at h
      rcases ih s' h with h' | h'
      · have h'' : Query.setProp L nm p vb ∈ resQueries (process_record_pairs pairs i s) := by
          rw [hr]
          exact h'
        exact process_pairs_record_setProp_mem pairs i s h''
      · exact Or.inr h'

theorem mark_web_client_setProp_mem (input : BHInput) (d : PyStr) (cfg : BHConfig)
    (fault : Option DBErr) (w : World) {L nm p : PyStr} {vb : Bool}
    (h : Query.setProp L nm p vb ∈ (mark_web_client_enabled input d cfg fault w).queries) :
    Query.setProp L nm p vb ∈ w.queries ∨ (p = ps "webclientrunning" ∧ vb = true) := by
  unfold mark_web_client_enabled at h
  by_cases hen : cfg.bh_enabled ≠ ps "False"
  · rw [if_pos hen] at h
    cases input with
    | single str =>
      rcases fault with _ | e
      · rcases hb : process_list_webclient [⟨pyUpper str, pyUpper d⟩]
            ⟨w.graph, w.queries, w.log⟩ with ⟨e', ts⟩ | ts
        · simp only [hb] at h
          have h' : Query.setProp L nm p vb ∈
              resQueries (process_list_webclient [⟨pyUpper str, pyUpper d⟩]
                ⟨w.graph, w.queries, w.log⟩) := by
            rw [hb]
            exact h
          exact process_list_webclient_setProp_mem _ _ h'
        · simp only [hb] at h
          have h' : Query.setProp L nm p vb ∈
              resQueries (process_list_webclient [⟨pyUpper str, pyUpper d⟩]
                ⟨w.graph, w.queries, w.log⟩) := by
            rw [hb]
            exact h
          exact process_list_webclient_setProp_mem _ _ h'
      · simp only [] at h
        exact Or.inl h
    | batch l =>
      rcases fault with _ | e
      · rcases hb : process_list_webclient l ⟨w.graph, w.queries, w.log⟩ with ⟨e', ts⟩ | ts
        · simp only [hb] at h
          have h' : Query.setProp L nm p vb ∈
              resQueries (process_list_webclient l ⟨w.graph, w.queries, w.log⟩) := by
            rw [hb]
            exact h
          exact process_list_webclient_setProp_mem _ _ h'
        · simp only [hb] at h
          have h' : Query.setProp L nm p vb ∈
              resQueries (process_list_webclient l ⟨w.graph, w.queries, w.log⟩) := by
            rw [hb]
            exact h
          exact process_list_webclient_setProp_mem _ _ h'
      · simp only [] at h
        exact Or.inl h
  · rw [if_neg hen] at h
    exact Or.inl h

theorem add_user_bh_setProp_mem (input : BHInput) (d : PyStr) (cfg : BHConfig)
    (fault : Option DBErr) (w : World) {L nm p : PyStr} {vb : Bool}
    (h : Query.setProp L nm p vb ∈ (add_user_bh input d cfg fault w).queries) :
    Query.setProp L nm p vb ∈ w.queries ∨ (p = ps "owned" ∧ vb = true) := by
  unfold add_user_bh at h
  by_cases hen : cfg.bh_enabled ≠ ps "False"
  · rw [if_pos hen] at h
    cases input with
    | single str =>
      rcases fault with _ | e
      · rcases hb : process_list_add [⟨pyUpper str, pyUpper d⟩]
            ⟨w.graph, w.queries, w.log⟩ with ⟨e', ts⟩ | ts
        · simp only [hb] at h
          have h' : Query.setProp L nm p vb ∈
              resQueries (process_list_add [⟨pyUpper str, pyUpper d⟩]
                ⟨w.graph, w.queries, w.log⟩) := by
            rw [hb]
            exact h
          exact process_list_add_setProp_mem _ _ h'
        · simp only [hb] at h
          have h' : Query.setProp L nm p vb ∈
              resQueries (process_list_add [⟨pyUpper str, pyUpper d⟩]
                ⟨w.graph, w.queries, w.log⟩) := by
            rw [hb]
            exact h
          exact process_list_add_setProp_mem _ _ h'
      · simp only [] at h
        exact Or.inl h
    | batch l =>
      rcases fault with _ | e
      · rcases hb : process_list_add l ⟨w.graph, w.queries, w.log⟩ with ⟨e', ts⟩ | ts
        · simp only [hb] at h
          have h' : Query.setProp L nm p vb ∈
              resQueries (process_list_add l ⟨w.graph, w.queries, w.log⟩) := by
            rw [hb]
            exact h
          exact process_list_add_setProp_mem _ _ h'
        · simp only [hb] at h
          have h' : Query.setProp L nm p vb ∈
              resQueries (process_list_add l ⟨w.graph, w.queries, w.log⟩) := by
            rw [hb]
            exact h
          exact process_list_add_setProp_mem _ _ h'
      · simp only [] at h
        exact Or.inl h
  · rw [if_neg hen] at h
    exact Or.inl h

theorem run_mark_operation_setProp_mem (pairs : List (PyStr × Bool)) (input : BHInput) (d : PyStr) (cfg : BHConfig)
    (fault : Option DBErr) (w : World) {L nm p : PyStr} {vb : Bool}
    (h : Query.setProp L nm p vb ∈ (run_mark_operation pairs input d cfg fault w).queries) :
    Query.setProp L nm p vb ∈ w.queries ∨ (p, vb) ∈ pairs := by
  unfold run_mark_operation at h
  by_cases hen : cfg.bh_enabled ≠ ps "False"
  · rw [if_pos hen] at h
    cases input with
    | single str =>
      rcases fault with _ | e
      · rcases hb : process_list_pairs pairs [⟨pyUpper str, pyUpper d⟩]
            ⟨w.graph, w.queries, w.log⟩ with ⟨e', ts⟩ | ts
        · simp only [hb] at h
          have h' : Query.setProp L nm p vb ∈
              resQueries (process_list_pairs pairs [⟨pyUpper str, pyUpper d⟩]
                ⟨w.graph, w.queries, w.log⟩) := by
            rw [hb]
            exact h
          exact process_list_pairs_setProp_mem pairs _ _ h'
        · simp only [hb] at h
          have h' : Query.setProp L nm p vb ∈
              resQueries (process_list_pairs pairs [⟨pyUpper str, pyUpper d⟩]
                ⟨w.graph, w.queries, w.log⟩) := by
            rw [hb]
            exact h
          exact process_list_pairs_setProp_mem pairs _ _ h'
      · simp only [] at h
        exact Or.inl h
    | batch l =>
      rcases fault with _ | e
      · rcases hb : process_list_pairs pairs l ⟨w.graph, w.queries, w.log⟩ with ⟨e', ts⟩ | ts
        · simp only [hb] at h
          have h' : Query.setProp L nm p vb ∈
              resQueries (process_list_pairs pairs l ⟨w.graph, w.queries, w.log⟩) := by
            rw [hb]
            exact h
          exact process_list_pairs_setProp_mem pairs _ _ h'
        · simp only [hb] at h
          have h' : Query.setProp L nm p vb ∈
              resQueries (process_list_pairs pairs l ⟨w.graph, w.queries, w.log⟩) := by
            rw [hb]
            exact h
          exact process_list_pairs_setProp_mem pairs _ _ h'
      · simp only [] at h
        exact Or.inl h
  · rw [if_neg hen] at h
    exact Or.inl h

/-- Concrete user node for the mark-operation table witnesses. -/
def c8User : Node := ⟨ps "User", ps "SVC@CORP.LOCAL", ps "CN=SVC,DC=CORP,DC=LOCAL", []⟩

/-- World with the `CORP.LOCAL` domain and one user, no assessment
properties stored. -/
def c8World : World := ⟨[c1DomainNode, c8User], [], [], 0, 0⟩

/-- Claim C8: the system provides a mark-operation per row of the spec's
table, each a record-batch driver applying the reconcile primitive with its
fixed `(property, desiredValue)` pair(s): the two source operations only
ever write `webclientrunning := true` resp. `owned := true`, the modelled
drivers only ever write their fixed pairs, and on a cleanly resolving
record the two-pair LDAP operations issue exactly two writes in the fixed
order (`ldapsigning=false` then `ldapavailable=true`; `ldapsepa=false` then
`ldapsavailable=true`), the SMB operation exactly one (`smbsigning=false`). -/
theorem claim_C8_mark_operation_table (input : BHInput) (d : PyStr) (cfg : BHConfig)
    (fault : Option DBErr) (w : World) (L nm p : PyStr) (vb : Bool) :
    mark_smb_signing_disabled = run_mark_operation [(ps "smbsigning", false)] ∧
    mark_ldap_signing_disabled =
      run_mark_operation [(ps "ldapsigning", false), (ps "ldapavailable", true)] ∧
    mark_ldaps_channel_binding_missing =
      run_mark_operation [(ps "ldapsepa", false), (ps "ldapsavailable", true)] ∧
    (Query.setProp L nm p vb ∈ (mark_web_client_enabled input d cfg fault w).queries →
      Query.setProp L nm p vb ∈ w.queries ∨ (p = ps "webclientrunning" ∧ vb = true)) ∧
    (Query.setProp L nm p vb ∈ (add_user_bh input d cfg fault w).queries →
      Query.setProp L nm p vb ∈ w.queries ∨ (p = ps "owned" ∧ vb = true)) ∧
    (Query.setProp L nm p vb ∈ (mark_smb_signing_disabled input d cfg fault w).queries →
      Query.setProp L nm p vb ∈ w.queries ∨ (p, vb) ∈ [(ps "smbsigning", false)]) ∧
    (Query.setProp L nm p vb ∈ (mark_ldap_signing_disabled input d cfg fault w).queries →
      Query.setProp L nm p vb ∈ w.queries ∨
        (p, vb) ∈ [(ps "ldapsigning", false), (ps "ldapavailable", true)]) ∧
    (Query.setProp L nm p vb ∈
        (mark_ldaps_channel_binding_missing input d cfg fault w).queries →
      Query.setProp L nm p vb ∈ w.queries ∨
        (p, vb) ∈ [(ps "ldapsepa", false), (ps "ldapsavailable", true)]) ∧
    (mark_ldap_signing_disabled (.single (ps "svc")) (ps "corp.local") c1Cfg none
        c8World).queries =
      [Query.domainCheck (ps "DC=CORP,DC=LOCAL"),
        Query.matchExact (ps "User") (ps "SVC@CORP.LOCAL"),
        Query.setProp (ps "User") (ps "SVC@CORP.LOCAL") (ps "ldapsigning") false,
        Query.domainCheck (ps "DC=CORP,DC=LOCAL"),
        Query.matchExact (ps "User") (ps "SVC@CORP.LOCAL"),
        Query.setProp (ps "User") (ps "SVC@CORP.LOCAL") (ps "ldapavailable") true] ∧
    (mark_ldaps_channel_binding_missing (.single (ps "svc")) (ps "corp.local") c1Cfg none
        c8World).queries =
      [Query.domainCheck (ps "DC=CORP,DC=LOCAL"),
        Query.matchExact (ps "User") (ps "SVC@CORP.LOCAL"),
        Query.setProp (ps "User") (ps "SVC@CORP.LOCAL") (ps "ldapsepa") false,
        Query.domainCheck (ps "DC=CORP,DC=LOCAL"),
        Query.matchExact (ps "User") (ps "SVC@CORP.LOCAL"),
        Query.setProp (ps "User") (ps "SVC@CORP.LOCAL") (ps "ldapsavailable") true] ∧
    (mark_smb_signing_disabled (.single (ps "svc")) (ps "corp.local") c1Cfg none
        c8World).queries =
      [Query.domainCheck (ps "DC=CORP,DC=LOCAL"),
        Query.matchExact (ps "User") (ps "SVC@CORP.LOCAL"),
        Query.setProp (ps "User") (ps "SVC@CORP.LOCAL") (ps "smbsigning") false] := by
  refine ⟨rfl, rfl, rfl, ?_, ?_, ?_, ?_, ?_, by decide, by decide, by decide⟩
  · intro h
    exact mark_web_client_setProp_mem input d cfg fault w h
  · intro h
    exact add_user_bh_setProp_mem input d cfg fault w h
  · intro h
    exact run_mark_operation_setProp_mem [(ps "smbsigning", false)] input d cfg fault w h
  · intro h
    exact run_mark_operation_setProp_mem [(ps "ldapsigning", false), (ps "ldapavailable", true)]
      input d cfg fault w h
  · intro h
    exact run_mark_operation_setProp_mem [(ps "ldapsepa", false), (ps "ldapsavailable", true)]
      input d cfg fault w h

/-- Witness for C8: the SMB driver issues its fixed write on a concrete
resolving record, and the write-content implication classifies it. -/
theorem claim_C8_witness :
    Query.setProp (ps "User") (ps "SVC@CORP.LOCAL") (ps "smbsigning") false ∈
      (mark_smb_signing_disabled (.single (ps "svc")) (ps "corp.local") c1Cfg none
        c8World).queries ∧
    (Query.setProp (ps "User") (ps "SVC@CORP.LOCAL") (ps "smbsigning") false ∈
      c8World.queries ∨ ((ps "smbsigning", false) : PyStr × Bool) ∈
        [(ps "smbsigning", false)]) :=
  ⟨by decide,
    (claim_C8_mark_operation_table (.single (ps "svc")) (ps "corp.local") c1Cfg none
      c8World (ps "User") (ps "SVC@CORP.LOCAL") (ps "smbsigning") false).2.2.2.2.2.1
      (by decide)⟩
